import Mathlib

/-!
Verification development for the Fillr form-autofill engine (content script).

The definitions below are a shallow embedding of the matching / routing /
fill-strategy engine of the repository's content script: the tokenizer, the
option normalizer, the weighted scoring engine with anchor gates, the field
catalog (FIELD_MAP), the option-matching tiers (alias, word-boundary,
semantic), the confidence router of autofillPage, and the learned-mapping
short circuit.  JavaScript score values are modelled exactly in integer
hundredths (every constant the engine uses is a multiple of 0.05), JavaScript
strings as Lean strings, and DOM elements as records carrying exactly the
attributes the engine reads.  Each definition names the source function it
embeds.
-/

/-- JavaScript word character for the regex class used by word boundaries:
one of A-Z, a-z, 0-9 or an underscore. -/
def isWordChar (c : Char) : Bool :=
  c.isAlpha || c.isDigit || c == '_'

/-- ASCII lower-case letter test used by the lookahead of the grad rule. -/
def isAsciiLower (c : Char) : Bool :=
  'a' ≤ c && c ≤ 'z'

/-- List-of-characters version of startsWith, used by the scanners below. -/
def leadsWith : List Char → List Char → Bool
  | [], _ => true
  | _ :: _, [] => false
  | a :: as, b :: bs => a == b && leadsWith as bs

/-- Helper for strHas: does needle occur at some position of the list? -/
def hasSubAux (needle : List Char) : List Char → Bool
  | [] => leadsWith needle []
  | l@(_ :: rest) => leadsWith needle l || hasSubAux needle rest

/-- JavaScript String.prototype.includes: substring containment (an empty
needle is contained in every string). -/
def strHas (hay needle : String) : Bool :=
  hasSubAux needle.data hay.data

/-- JavaScript String.prototype.trim on a character list. -/
def jsTrimChars (cs : List Char) : List Char :=
  ((cs.dropWhile (·.isWhitespace)).reverse.dropWhile (·.isWhitespace)).reverse

/-- JavaScript String.prototype.trim. -/
def jsTrim (s : String) : String :=
  (jsTrimChars s.data).asString

/-- JavaScript String.prototype.toLowerCase (ASCII letters, which is all the
engine's inputs use after extraction). -/
def jsToLower (s : String) : String :=
  (s.data.map Char.toLower).asString

/-- JavaScript `a || b` on strings: the empty string is falsy. -/
def jsOr (a b : String) : String :=
  if a = "" then b else a

/-- Split a character list at every character satisfying p, keeping empty
chunks, exactly like JavaScript String.prototype.split with a one-character
class: "a  b".split(" ") = ["a", "", "b"]. -/
def chunksOn (p : Char → Bool) : List Char → List (List Char)
  | [] => [[]]
  | c :: r =>
    let acc := chunksOn p r
    if p c then [] :: acc
    else
      match acc with
      | h :: t => (c :: h) :: t
      | [] => [[c]]

/-- JavaScript split(" ") (single space separator, empty chunks kept),
as used by calculateOptionScore. -/
def splitSpace (s : String) : List String :=
  (chunksOn (· == ' ') s.data).map (·.asString)

/-- JavaScript split(".") as used by getValueByPath. -/
def splitDot (s : String) : List String :=
  (chunksOn (· == '.') s.data).map (·.asString)

/-- JavaScript split on whitespace runs with empty tokens dropped, the final
step of tokenize: split(/\s+/) followed by filtering empty tokens. -/
def wsTokens (cs : List Char) : List String :=
  ((chunksOn (·.isWhitespace) cs).filter (· ≠ [])).map (·.asString)

/-- Is the head of the remaining input a word character?  Used for the right
word boundary of the replacement scanners (end of input is a boundary). -/
def nextIsWord : List Char → Bool
  | [] => false
  | c :: _ => isWordChar c

/-- Is the head of the remaining input an ASCII lower-case letter?  Used for
the negative lookahead of the grad rule (end of input passes the lookahead). -/
def nextIsLowerAlpha : List Char → Bool
  | [] => false
  | c :: _ => isAsciiLower c

/-- One global pass of text.replace over a plain word pattern framed by word
boundaries on both sides (the source's \bx\b, \bxii\b, \bxth\b, \bxiith\b
rules).  The scan moves left to right; prevW records whether the previous
character of the original string is a word character, which decides the left
boundary; the right boundary requires the character after the match (in the
original string) not to be a word character.  Matching is non-overlapping and
resumes after the matched text, as with a /g regex.  fuel starts at the input
length; every step consumes at least one input character (patterns are
non-empty), so fuel never runs out on the initial call. -/
def replWordAux (pat repl : List Char) : Nat → Bool → List Char → List Char
  | 0, _, s => s
  | _ + 1, _, [] => []
  | fuel + 1, prevW, c :: rest =>
    if !prevW && leadsWith pat (c :: rest) && !nextIsWord ((c :: rest).drop pat.length) then
      repl ++ replWordAux pat repl fuel true ((c :: rest).drop pat.length)
    else
      c :: replWordAux pat repl fuel (isWordChar c) rest

/-- One replace pass for a word pattern (both ends of the pattern are word
characters, as for all the patterns the tokenizer uses). -/
def replWord (pat repl : String) (s : List Char) : List Char :=
  replWordAux pat.data repl.data s.length false s

/-- Match the source's \bclass\s+x\b (respectively xii) at the head of the
input: the literal word class, at least one whitespace character (greedy, as
\s+ before a non-whitespace suffix), the suffix, and a right word boundary.
Returns the remaining input after the match. -/
def clsMatch (sfx : List Char) (s : List Char) : Option (List Char) :=
  if leadsWith "class".data s then
    let t := s.drop 5
    let ws := t.takeWhile (·.isWhitespace)
    if ws.length = 0 then none
    else
      let u := t.drop ws.length
      if leadsWith sfx u && !nextIsWord (u.drop sfx.length) then
        some (u.drop sfx.length)
      else none
  else none

/-- One global pass of the class-x / class-xii replacement rules.  The left
word boundary before class is decided by prevW; after a match the previous
original character is the suffix's last character, a word character. -/
def clsReplAux (sfx out : List Char) : Nat → Bool → List Char → List Char
  | 0, _, s => s
  | _ + 1, _, [] => []
  | fuel + 1, prevW, c :: rest =>
    match (if !prevW then clsMatch sfx (c :: rest) else none) with
    | some remaining => out ++ clsReplAux sfx out fuel true remaining
    | none => c :: clsReplAux sfx out fuel (isWordChar c) rest

/-- Replace pass for \bclass\s+sfx\b -> out. -/
def clsRepl (sfx out : String) (s : List Char) : List Char :=
  clsReplAux sfx.data out.data s.length false s

/-- Match the source's /\bgrad\.?(?=[^a-z]|$)/ rule at the head of the input
(the string is already lower-cased).  After the literal grad, the regex
prefers to consume an optional dot when the lookahead holds after it; when
the next character after the dot is a lower-case letter it backtracks to the
empty alternative, whose lookahead sees the dot itself, which is in [^a-z].
Returns whether the last matched character is a word character (for the next
left-boundary decision) and the remaining input. -/
def gradMatch (s : List Char) : Option (Bool × List Char) :=
  if leadsWith "grad".data s then
    let t := s.drop 4
    match t with
    | '.' :: u => if !nextIsLowerAlpha u then some (false, u) else some (true, '.' :: u)
    | _ => if !nextIsLowerAlpha t then some (true, t) else none
  else none

/-- One global pass of the grad -> graduation replacement. -/
def gradReplAux : Nat → Bool → List Char → List Char
  | 0, _, s => s
  | _ + 1, _, [] => []
  | fuel + 1, prevW, c :: rest =>
    match (if !prevW then gradMatch (c :: rest) else none) with
    | some (lastW, remaining) => "graduation".data ++ gradReplAux fuel lastW remaining
    | none => c :: gradReplAux fuel (isWordChar c) rest

/-- Replace pass for \bgrad\.?(?=[^a-z]|$) -> graduation. -/
def gradRepl (s : List Char) : List Char :=
  gradReplAux s.length false s

/-- Replace pass for % -> " percentage ". -/
def pctRepl (s : List Char) : List Char :=
  s.flatMap fun c => if c == '%' then " percentage ".data else [c]

/-- Replace pass for / -> " ". -/
def slashRepl (s : List Char) : List Char :=
  s.map fun c => if c == '/' then ' ' else c

/-- Replace pass for - -> " ". -/
def dashRepl (s : List Char) : List Char :=
  s.map fun c => if c == '-' then ' ' else c

/-- tokenize from the source: lower-case and trim, apply the Roman-numeral
and symbol replacement rules in order, then split on whitespace dropping
empty tokens. -/
def tokenize (text : String) : List String :=
  if text = "" then []
  else
    let cs := jsTrimChars (text.data.map Char.toLower)
    let cs := clsRepl "x" "class 10" cs
    let cs := clsRepl "xii" "class 12" cs
    let cs := replWord "x" "10" cs
    let cs := replWord "xii" "12" cs
    let cs := replWord "xth" "10th" cs
    let cs := replWord "xiith" "12th" cs
    let cs := gradRepl cs
    let cs := pctRepl cs
    let cs := slashRepl cs
    let cs := dashRepl cs
    wsTokens cs

/-- normalizeOption from the source: lower-case, replace every character
outside [a-z0-9 ] by a space, collapse whitespace runs to single spaces and
trim.  (Collapsing and trimming are realised by splitting on spaces and
re-joining the non-empty chunks, which is the same function.) -/
def normalizeOption (text : String) : String :=
  if text = "" then ""
  else
    let cs := text.data.map Char.toLower
    let cs := cs.map fun c =>
      if ('a' ≤ c && c ≤ 'z') || c.isDigit || c == ' ' then c else ' '
    String.intercalate " " (((chunksOn (· == ' ') cs).filter (· ≠ [])).map (·.asString))

/-- One catalog entry of FIELD_MAP.  Optional attributes of the JavaScript
object (numericAnchors, requiredAnchors, exclusionAnchors, options, the
isNumeric and isDate flags) are modelled by their falsy defaults: an empty
list or false behaves exactly like an absent attribute everywhere the engine
reads them. -/
structure FieldConfig where
  path : String
  primary : List String := []
  secondary : List String := []
  generic : List String := []
  negative : List String := []
  numericAnchors : List String := []
  requiredAnchors : List String := []
  exclusionAnchors : List String := []
  options : List (String × List String) := []
  isNumeric : Bool := false
  isDate : Bool := false
deriving DecidableEq

/-- FIELD_MAP from the source, as an association list in declaration order
(JavaScript for-in visits string keys in insertion order). -/
def FIELD_MAP : List (String × FieldConfig) := [
  ("uid", {
    path := "ids.uid",
    primary := ["uid", "university roll number", "roll number", "roll no",
      "registration number", "enrollment number"],
    secondary := ["registration", "university id", "candidate id"],
    generic := ["id", "number"],
    negative := ["reference", "transaction", "payment", "receipt"] }),
  ("university_roll_number", {
    path := "ids.uid",
    primary := ["university roll number", "university roll no"],
    secondary := ["roll no", "roll number"],
    generic := ["roll"],
    negative := [] }),
  ("name", {
    path := "personal.name",
    primary := ["name", "full name", "student full name", "candidate name"],
    secondary := ["applicant name", "your name", "student name"],
    generic := ["fullname"],
    negative := ["father", "mother", "guardian", "parent", "spouse"] }),
  ("gender", {
    path := "personal.gender",
    primary := ["gender", "student gender"],
    secondary := ["sex"],
    generic := ["male", "female"],
    negative := [],
    options := [
      ("Male", ["male", "m", "man"]),
      ("Female", ["female", "f", "woman"]),
      ("Other", ["other", "transgender"])] }),
  ("dob", {
    path := "personal.dob",
    primary := ["date of birth", "dob", "birth date"],
    secondary := ["d.o.b", "birthdate"],
    generic := [],
    negative := [],
    isDate := true }),
  ("age", {
    path := "personal.age",
    primary := ["age"],
    secondary := ["age in years"],
    generic := [],
    negative := ["months", "month"],
    isNumeric := true }),
  ("permanent_address", {
    path := "personal.permanent_address",
    primary := ["permanent address"],
    secondary := ["address", "residential address"],
    generic := [],
    negative := ["email", "contact", "correspondence"] }),
  ("email", {
    path := "personal.email",
    primary := ["email", "email id", "personal email id", "email address"],
    secondary := ["personal email", "contact email", "primary email"],
    generic := ["mail"],
    negative := ["college email", "alternate", "parent", "guardian"] }),
  ("phone", {
    path := "personal.phone",
    primary := ["mobile", "mobile number", "primary mobile number", "contact number"],
    secondary := ["phone number", "contact no", "mob no", "phone"],
    generic := ["number"],
    negative := ["landline", "alternate", "parent", "guardian"] }),
  ("tenth_percentage", {
    path := "academics.tenth_percentage",
    primary := ["10th", "tenth", "class 10", "10th percentage", "class x"],
    secondary := ["ssc", "matriculation", "matric", "secondary"],
    generic := ["percentage", "percent", "marks", "score"],
    numericAnchors := ["10", "10th", "x"],
    negative := ["preferred", "expected"] }),
  ("twelfth_percentage", {
    path := "academics.twelfth_percentage",
    primary := ["12th", "twelfth", "class 12", "12th percentage", "class xii"],
    secondary := ["hsc", "senior secondary", "higher secondary"],
    generic := ["percentage", "percent", "marks", "score"],
    numericAnchors := ["12", "12th", "xii"],
    negative := ["preferred", "expected"] }),
  ("diploma_percentage", {
    path := "academics.diploma_percentage",
    primary := ["diploma", "diploma percentage", "diploma %"],
    secondary := ["polytechnic", "diploma marks"],
    generic := ["percentage", "percent", "marks"],
    negative := ["preferred", "expected", "10th", "12th"],
    requiredAnchors := ["diploma", "polytechnic"] }),
  ("graduation_percentage", {
    path := "academics.graduation_percentage",
    primary := ["graduation percentage", "graduation %", "grad %", "grad.", "grad",
      "ug percentage", "undergraduate percentage", "aggregate percentage",
      "aggregate %", "agg percentage", "agg %", "overall percentage"],
    secondary := ["degree percentage", "degree marks", "ug marks",
      "btech percentage", "be percentage"],
    generic := ["percentage", "%", "marks"],
    negative := ["pg", "post graduation", "cgpa", "gpa"],
    requiredAnchors := ["grad", "graduation", "ug", "degree", "btech", "be",
      "aggregate", "agg", "overall"],
    exclusionAnchors := ["post graduation", "cgpa", "cpi", "gpa"] }),
  ("pg_percentage", {
    path := "academics.pg_percentage",
    primary := ["pg %", "pg percentage", "post graduation %", "post graduation percentage"],
    secondary := ["masters percentage", "mtech percentage", "msc percentage"],
    generic := ["percentage", "%"],
    negative := ["grad", "graduation", "ug", "cgpa"],
    requiredAnchors := ["pg", "post graduation", "masters", "mtech", "msc"] }),
  ("cgpa", {
    path := "academics.cgpa",
    primary := ["cgpa", "cpi"],
    secondary := ["gpa", "cumulative grade point average"],
    generic := [],
    negative := ["percentage", "%", "marks"],
    requiredAnchors := ["cgpa", "cpi", "gpa"] }),
  ("active_backlog", {
    path := "academics.active_backlog",
    primary := ["active backlog", "any active backlog", "current backlogs",
      "backlogs in current course"],
    secondary := ["backlogs", "backlog"],
    generic := [],
    negative := ["history", "count", "number", "no of"],
    options := [
      ("Yes", ["yes", "y", "true", "active", "have backlogs"]),
      ("No", ["no", "n", "false", "clear", "all clear", "none", "0", "nil"])] }),
  ("backlog_count", {
    path := "academics.backlog_count",
    primary := ["no of active backlog", "number of active backlogs",
      "count of backlogs", "number of backlog", "backlog count"],
    secondary := ["how many backlogs"],
    generic := [],
    negative := [],
    isNumeric := true }),
  ("gap_months", {
    path := "academics.gap_months",
    primary := ["gap", "break in education", "gap in education"],
    secondary := ["education gap", "gap / break"],
    generic := ["months"],
    negative := ["year"],
    requiredAnchors := ["gap", "break"],
    isNumeric := true }),
  ("batch", {
    path := "education.batch",
    primary := ["batch", "passing year", "year of passing", "passing out batch",
      "passout batch"],
    secondary := ["passout year", "pass out year", "passing out year"],
    generic := ["year"],
    negative := [],
    options := [
      ("2023", ["2023"]), ("2024", ["2024"]), ("2025", ["2025"]), ("2026", ["2026"]),
      ("2027", ["2027"]), ("2028", ["2028"]), ("2029", ["2029"])] }),
  ("program", {
    path := "education.program",
    primary := ["program", "degree", "course", "current course"],
    secondary := ["qualification", "pursuing"],
    generic := ["be", "btech", "mtech"],
    negative := [],
    options := [
      ("B.E", ["b.e", "b.e.", "be", "bachelor of engineering"]),
      ("B.E+M.E (Integrated)", ["b.e+m.e", "integrated", "b.e + m.e", "dual degree"]),
      ("B.Tech", ["btech", "b.tech", "b.tech.", "bachelor of technology"]),
      ("M.Tech", ["mtech", "m.tech", "m.tech.", "master of technology"]),
      ("MCA", ["mca", "master of computer applications"]),
      ("BCA", ["bca", "bachelor of computer applications"]),
      ("MBA", ["mba", "master of business administration"])] }),
  ("stream", {
    path := "education.stream",
    primary := ["stream", "current stream", "branch", "specialization"],
    secondary := ["department"],
    generic := ["engg"],
    negative := [],
    options := [
      ("CSE", ["cse", "computer science", "cs", "computer science and engineering"]),
      ("IT", ["information technology", "info tech", "it"]),
      ("AIML", ["aiml", "ai ml", "artificial intelligence", "ai-ml", "ai", "ml"]),
      ("BDA", ["bda", "big data analytics", "big data"]),
      ("IoT", ["iot", "internet of things"]),
      ("CC", ["cc", "cloud computing", "cloud"]),
      ("GG", ["gg"]),
      ("CSBS", ["csbs", "computer science business systems"]),
      ("IS", ["is", "information security"]),
      ("Blockchain", ["blockchain", "block chain"]),
      ("Devops", ["devops", "dev ops"]),
      ("ME", ["mechanical", "mech", "me"]),
      ("CE", ["civil", "ce"]),
      ("ECE", ["electronics", "electronics and communication", "ece"])] }),
  ("college_name", {
    path := "education.college_name",
    primary := ["college name", "institute name", "name of college", "college"],
    secondary := ["institute", "university"],
    generic := ["campus"],
    negative := ["email", "id"] }),
  ("position_applying", {
    path := "placement.position_applying",
    primary := ["position applying", "position applying for", "job role"],
    secondary := ["role", "applying for"],
    generic := ["position"],
    negative := [] }),
  ("github", {
    path := "links.github",
    primary := ["github", "github profile", "github url"],
    secondary := ["git repository"],
    generic := ["git"],
    negative := ["gitlab"] }),
  ("linkedin", {
    path := "links.linkedin",
    primary := ["linkedin", "linkedin profile", "linkedin url"],
    secondary := ["linked in"],
    generic := ["profile"],
    negative := [] }),
  ("resume", {
    path := "links.resume",
    primary := ["resume", "resume link", "public resume link", "cv", "cv link"],
    secondary := ["curriculum vitae", "resume url", "resume drive link"],
    generic := ["link"],
    negative := ["upload", "attach", "file"] }),
  ("job_location", {
    path := "placement.job_location",
    primary := ["job location", "job location preference", "preferred location",
      "location preference"],
    secondary := ["work location", "preferred work location"],
    generic := ["location"],
    negative := [] })]

/-- FIELD_MAP[key] object indexing. -/
def fieldMapLookup (key : String) : Option FieldConfig :=
  (FIELD_MAP.find? (·.1 == key)).map (·.2)

/-!
The keyword scoring engine accumulates the weights 0.6 / 0.3 / 0.15 / 0.4 in
JavaScript number arithmetic, that is in IEEE-754 binary64, and rounding is
observable at the routing thresholds: 0.6 + 0.3 - 0.4 evaluates to
0.4999999999999999, strictly below 0.5.  The accumulated keyword score is
therefore modelled by Fl, an exact representation of the finite binary64
values as m * 2^e with round-to-nearest-even addition; every value the engine
builds stays far inside the normal range, so neither overflow nor subnormal
rounding can occur and Fl addition coincides with binary64 addition on them.

The option-matching scores (calculateOptionScore and the yes/no scores) never
accumulate: each score is one of the constants 1.0 / 0.8 / 0.7 / 0.6 / 0.2,
0.4, 0.6000000000000001 (a single product count * 0.2 capped by Math.min at
0.6) or 0, and every comparison among those and the 0.6 threshold orders the
same way as the exact values.  They are kept in exact integer hundredths
(0.6 becomes 60), which is value-faithful for every comparison the source
performs on them.
-/

/-- A finite IEEE-754 binary64 value, represented exactly as m * 2^e.
Values produced by the operations below are canonical: m is odd, or m = 0
and e = 0, so structural equality is value equality. -/
structure Fl where
  m : Int
  e : Int
deriving DecidableEq

/-- Bit length of a natural number, by fuel-bounded halving; fuel n is
always sufficient since the recursion depth is the bit length itself. -/
def bitLenAux : Nat → Nat → Nat
  | 0, _ => 0
  | f + 1, n => if n = 0 then 0 else bitLenAux f (n / 2) + 1

/-- Bit length of a natural number. -/
def bitLen (n : Nat) : Nat := bitLenAux n n

/-- Strip trailing zero bits of the mantissa, moving them into the exponent;
fuel |m| bounds the number of strippable bits. -/
def canonAux : Nat → Int → Int → Fl
  | 0, m, e => ⟨m, e⟩
  | f + 1, m, e => if m % 2 = 0 then canonAux f (m / 2) (e + 1) else ⟨m, e⟩

/-- Canonical form of m * 2^e. -/
def flCanon (m e : Int) : Fl :=
  if m = 0 then ⟨0, 0⟩ else canonAux m.natAbs m e

/-- Round the magnitude s down by k bits with round-to-nearest, ties to
even (k is at least 1 when called). -/
def rdEven (s k : Nat) : Nat :=
  let q := s / 2 ^ k
  let r := s % 2 ^ k
  let half := 2 ^ (k - 1)
  if half < r then q + 1
  else if r < half then q
  else if q % 2 = 1 then q + 1 else q

/-- Round the exact value M * 2^e to 53 significant bits, round to nearest,
ties to even: the binary64 rounding of a value in the normal range. -/
def flRound (M : Int) (e : Int) : Fl :=
  if M = 0 then ⟨0, 0⟩
  else
    let s := M.natAbs
    let b := bitLen s
    if b ≤ 53 then flCanon M e
    else
      let k := b - 53
      let q := rdEven s k
      let sq : Int := if M < 0 then -(q : Int) else (q : Int)
      flCanon sq (e + (k : Int))

/-- The smaller of two integers (spelled out so that it reduces in the
kernel). -/
def minInt (x y : Int) : Int := if x ≤ y then x else y

/-- Binary64 addition: align the exponents, add exactly, round to 53 bits. -/
def flAdd (a b : Fl) : Fl :=
  let e := minInt a.e b.e
  flRound (a.m * ((2 ^ (a.e - e).toNat : Nat) : Int)
    + b.m * ((2 ^ (b.e - e).toNat : Nat) : Int)) e

/-- Binary64 negation (exact). -/
def flNeg (a : Fl) : Fl := ⟨-a.m, a.e⟩

/-- Binary64 subtraction a - b = a + (-b). -/
def flSub (a b : Fl) : Fl := flAdd a (flNeg b)

/-- The strict order of binary64 values. -/
def flLt (a b : Fl) : Bool :=
  let e := minInt a.e b.e
  decide (a.m * ((2 ^ (a.e - e).toNat : Nat) : Int)
    < b.m * ((2 ^ (b.e - e).toNat : Nat) : Int))

/-- The order of binary64 values. -/
def flLe (a b : Fl) : Bool :=
  let e := minInt a.e b.e
  decide (a.m * ((2 ^ (a.e - e).toNat : Nat) : Int)
    ≤ b.m * ((2 ^ (b.e - e).toNat : Nat) : Int))

/-- JavaScript Math.min on (finite, non-NaN) numbers. -/
def flMin (a b : Fl) : Fl := if flLe a b then a else b

/-- JavaScript Math.max on (finite, non-NaN) numbers. -/
def flMax (a b : Fl) : Fl := if flLe a b then b else a

/-- The number 0. -/
def fl0 : Fl := ⟨0, 0⟩

/-- The number 1. -/
def fl1 : Fl := ⟨1, 0⟩

/-- The double 0.6 = 5404319552844595 * 2^-53 (0.5999999999999999778...). -/
def fl06 : Fl := ⟨5404319552844595, -53⟩

/-- The double 0.3 = 5404319552844595 * 2^-54. -/
def fl03 : Fl := ⟨5404319552844595, -54⟩

/-- The double 0.15 = 5404319552844595 * 2^-55. -/
def fl015 : Fl := ⟨5404319552844595, -55⟩

/-- The double 0.4 = 3602879701896397 * 2^-53 (0.4000000000000000222...). -/
def fl04 : Fl := ⟨3602879701896397, -53⟩

/-- Confidence threshold HIGH_CONFIDENCE = 0.75 (exact in binary64). -/
def HIGH_CONFIDENCE : Fl := ⟨3, -2⟩

/-- Confidence threshold MEDIUM_CONFIDENCE = 0.5 (exact in binary64). -/
def MEDIUM_CONFIDENCE : Fl := ⟨1, -1⟩

/-- JavaScript Math.min on numbers, for the option scores kept in integer
hundredths. -/
def jsMin (a b : Int) : Int :=
  if a ≤ b then a else b

/-- JavaScript Math.max on numbers, for the option scores kept in integer
hundredths. -/
def jsMax (a b : Int) : Int :=
  if a ≤ b then b else a

/-- One keyword hit test of calculateAdvancedScore: every token of the
keyword's own tokenization appears in the field's token list. -/
def keywordHit (tokens : List String) (keyword : String) : Bool :=
  (tokenize keyword).all fun t => tokens.contains t

/-- calculateAdvancedScore from the source: primary hits add 0.6, secondary
hits 0.3, generic hits 0.15, negative hits subtract 0.4, accumulated in list
order over one running score in binary64 arithmetic, then clamped by
Math.max(0, Math.min(score, 1.0)). -/
def calculateAdvancedScore (tokens : List String) (config : FieldConfig) : Fl :=
  let s1 := config.primary.foldl
    (fun s kw => if keywordHit tokens kw then flAdd s fl06 else s) fl0
  let s2 := config.secondary.foldl
    (fun s kw => if keywordHit tokens kw then flAdd s fl03 else s) s1
  let s3 := config.generic.foldl
    (fun s kw => if keywordHit tokens kw then flAdd s fl015 else s) s2
  let s4 := config.negative.foldl
    (fun s kw => if keywordHit tokens kw then flSub s fl04 else s) s3
  flMax fl0 (flMin s4 fl1)

/-- hasNumericAnchor from the source: an empty (or absent) anchor list means
no requirement; otherwise at least one anchor's full tokenization must be
contained in the field's tokens. -/
def hasNumericAnchor (tokens : List String) (anchors : List String) : Bool :=
  if anchors.isEmpty then true
  else anchors.any fun anchor => (tokenize anchor).all fun t => tokens.contains t

/-- Result record of findBestMatchWithScore. -/
structure BestMatch where
  bestMatch : Option String
  score : Fl
deriving DecidableEq

/-- Loop body of findBestMatchWithScore for one catalog entry: the numeric
anchor gate, the required anchor gate (only checked when the list is
non-empty), the exclusion anchor gate (entry skipped when a non-empty
exclusion list has a hit), then the weighted score, kept when strictly above
the running best (ties keep the earlier entry). -/
def bestMatchStep (tokens : List String) (acc : BestMatch)
    (entry : String × FieldConfig) : BestMatch :=
  if !hasNumericAnchor tokens entry.2.numericAnchors then acc
  else if !entry.2.requiredAnchors.isEmpty
      && !hasNumericAnchor tokens entry.2.requiredAnchors then acc
  else if !entry.2.exclusionAnchors.isEmpty
      && hasNumericAnchor tokens entry.2.exclusionAnchors then acc
  else
    let score := calculateAdvancedScore tokens entry.2
    if flLt acc.score score then ⟨some entry.1, score⟩ else acc

/-- findBestMatchWithScore from the source: tokenize the combined field text
and fold the gated scoring over FIELD_MAP in declaration order, starting from
no match and score 0. -/
def findBestMatchWithScore (fieldText : String) : BestMatch :=
  FIELD_MAP.foldl (bestMatchStep (tokenize fieldText)) ⟨none, fl0⟩

/-- Profile tree: nested groups of scalar string values (data model of the
popup's profile object).  The engine reads it only through getValueByPath. -/
inductive ProfVal where
  | str (s : String)
  | obj (fields : List (String × ProfVal))

/-- Property lookup on an object's field list. -/
def lookupField : List (String × ProfVal) → String → Option ProfVal
  | [], _ => none
  | (k, v) :: rest, key => if k == key then some v else lookupField rest key

/-- getValueByPath from the source: path.split(".").reduce((acc, key) =>
acc?.[key], obj).  Indexing a string value or missing property yields
undefined, modelled as none. -/
def getValueByPath (p : ProfVal) (path : String) : Option ProfVal :=
  (splitDot path).foldl
    (fun acc key =>
      match acc with
      | some (ProfVal.obj fields) => lookupField fields key
      | _ => none)
    (some p)

/-- Truthiness filter the engine applies to a resolved profile value
(value || null, and the if (value) guards).  The profile carries scalar
strings at its leaves (section 3 of the data model), so a fillable value is a
non-empty string; an object resolved at a full catalog path is outside the
data model and is not treated as a fillable value here. -/
def truthyValue : Option ProfVal → Option String
  | some (ProfVal.str s) => if s = "" then none else some s
  | _ => none

/-- UNSAFE_LABELS deny list from the source. -/
def deniedLabels : List String :=
  ["undertaking", "declaration", "agreement", "send me a copy", "file upload",
   "upload", "attach", "signature", "i agree", "terms and conditions"]

/-- isUnsafeLabel from the source: some deny-list phrase is a substring of
the lower-cased label. -/
def isUnsafeLabel (label : String) : Bool :=
  if label = "" then false
  else deniedLabels.any fun u => strHas (jsToLower label) u

/-- calculateOptionScore from the source, in hundredths: 0 when either
normalized string is empty (falsy guard), 1.0 on equality, 0.8 when the
target contains the query, 0.7 when the query contains the target, otherwise
Math.min(0.6, commonTokenCount * 0.2) where the common tokens are the query's
split(" ") tokens that occur among the target's, and 0 when none is shared. -/
def calculateOptionScore (target query : String) : Int :=
  if target = "" || query = "" then 0
  else if target = query then 100
  else if strHas target query then 80
  else if strHas query target then 70
  else
    let queryTokens := splitSpace query
    let targetTokens := splitSpace target
    let commonTokens := queryTokens.filter fun t => targetTokens.contains t
    if 0 < commonTokens.length then jsMin 60 ((commonTokens.length : Int) * 20)
    else 0

/-- Does target occur in text at a position framed by regex word boundaries?
This is test of new RegExp("\\b" + escaped(target) + "\\b") for the targets
the engine builds: normalizeOption outputs, which are non-empty, begin and
end with a word character and contain no regex metacharacters (so the
escaping step is the identity on them). -/
def wordBoundedIn (text target : String) : Bool :=
  let tc := text.data
  let pc := target.data
  (List.range (tc.length + 1)).any fun i =>
    leadsWith pc (tc.drop i)
    && (decide (i = 0) || !nextIsWord (tc.drop (i - 1)))
    && !nextIsWord (tc.drop (i + pc.length))

/-- matchesTarget helper of the Google Forms handlers: false on an empty
target, otherwise exact equality or a whole-word occurrence. -/
def matchesTarget (optionText target : String) : Bool :=
  if target = "" then false
  else optionText == target || wordBoundedIn optionText target

/-- One DOM option as the engine reads it: an option element's text and value
attribute for selects, or a radio input with the label text that
getRadioOptionLabel extracts for it. -/
structure DomOption where
  text : String := ""
  value : String := ""
  radioLabel : String := ""
deriving DecidableEq

/-- One form control as the engine reads it.  label is the result of the
getFieldLabel extraction chain (an input of this model); options holds the
select's option list, or for a radio input its whole radio group as
getRadioGroup collects it. -/
structure Element where
  tagName : String := "INPUT"
  etype : String := "text"
  value : String := ""
  checked : Bool := false
  label : String := ""
  placeholder : String := ""
  name : String := ""
  id : String := ""
  options : List DomOption := []

/-- isSafeToFill from the source: refuse password / hidden / submit / button
controls; for a radio, refuse only when already checked; a SELECT is always
eligible regardless of its current selection (the default first-option
selection does not count as user-filled); any other control already holding
a non-whitespace value is refused; accept everything else. -/
def isSafeToFill (e : Element) : Bool :=
  if e.etype == "password" then false
  else if e.etype == "hidden" then false
  else if e.etype == "submit" || e.etype == "button" then false
  else if e.etype == "radio" then !e.checked
  else if e.tagName == "SELECT" then true
  else if e.value ≠ "" && jsTrim e.value ≠ "" then false
  else true

/-- Digit-only test for the decimal recognizer. -/
def digitsOnly (l : List Char) : Bool :=
  l.all Char.isDigit

/-- Optional exponent suffix of a decimal literal. -/
def expSuffix : List Char → Bool
  | [] => true
  | 'e' :: r => expDigits r
  | 'E' :: r => expDigits r
  | _ => false
where
  expDigits : List Char → Bool
    | '+' :: d => d ≠ [] && digitsOnly d
    | '-' :: d => d ≠ [] && digitsOnly d
    | d => d ≠ [] && digitsOnly d

/-- Unsigned decimal mantissa (digits, optional dot, at least one digit
somewhere) followed by an optional exponent. -/
def mantissaThenExp (l : List Char) : Bool :=
  let intPart := l.takeWhile Char.isDigit
  let rest := l.drop intPart.length
  match rest with
  | '.' :: r =>
    let frac := r.takeWhile Char.isDigit
    (intPart ≠ [] || frac ≠ []) && expSuffix (r.drop frac.length)
  | _ => intPart ≠ [] && expSuffix rest

/-- isNumericValue from the source: !isNaN(parseFloat(value)) &&
isFinite(value).  For the string values the engine passes in, the
conjunction holds exactly when the whitespace-trimmed string is a signed
decimal literal (optional fraction and exponent); exotic JavaScript numeric
forms (hex literals, the word Infinity) that no profile value or claim
exercises are not modelled. -/
def isNumericValue (value : String) : Bool :=
  if value = "" then false
  else
    match jsTrimChars value.data with
    | [] => false
    | '+' :: r => mantissaThenExp r
    | '-' :: r => mantissaThenExp r
    | r => mantissaThenExp r

/-- formatDateValue from the source, as far as fillField observes it: an ISO
YYYY-MM-DD string is returned unchanged and the empty string yields the empty
string.  The source additionally reformats strings that new Date() can parse;
that reformatting never changes emptiness, which is all fillField inspects,
and is not modelled further. -/
def formatDateValue (value : String) (_inputType : String) : String :=
  if value = "" then "" else value

/-- First matching concept of a catalog entry's options map for a normalized
profile value, returning [...aliases, key] as tryAliasMatch builds it: the
canonical key is compared first, then the alias list, per entry in order. -/
def conceptAliases : List (String × List String) → String → List String
  | [], _ => []
  | (key, aliases) :: rest, np =>
    if normalizeOption key == np then aliases ++ [key]
    else if aliases.any (fun a => normalizeOption a == np) then aliases ++ [key]
    else conceptAliases rest np

/-- Option text the native matchers compare: the individual radio label for
radio inputs, otherwise option.text || option.value. -/
def nativeOptionText (isRadio : Bool) (o : DomOption) : String :=
  if isRadio then o.radioLabel else jsOr o.text o.value

/-- Per-option test of tryAliasMatch's inner loop: some target alias is a
substring of the option's normalized text, or equals its normalized value. -/
def aliasOptionPred (isRadio : Bool) (targetAliases : List String)
    (option : DomOption) : Bool :=
  let optionText := normalizeOption (nativeOptionText isRadio option)
  let optionValue := normalizeOption option.value
  targetAliases.any fun al =>
    let na := normalizeOption al
    strHas optionText na || optionValue == na

/-- tryAliasMatch from the source (tier 1 of the native select / radio
option matching): find the concept whose key or alias list matches the
normalized profile value, then return the first DOM option whose normalized
text CONTAINS one of the concept's aliases as a substring, or whose
normalized value equals that alias. -/
def tryAliasMatch (element : Element) (profileValue : String)
    (fieldConfig : Option FieldConfig) : Option DomOption :=
  match fieldConfig with
  | none => none
  | some cfg =>
    if cfg.options.isEmpty then none
    else
      let normalizedProfile := normalizeOption profileValue
      let isRadio := element.etype == "radio"
      let targetAliases := conceptAliases cfg.options normalizedProfile
      if targetAliases.isEmpty then none
      else element.options.find? (aliasOptionPred isRadio targetAliases)

/-- Score trySemanticOptionMatch assigns one option: yes/no profile values
score 1.0 only on exact equality of the normalized text or value and 0
otherwise; other values take the larger fuzzy score of the option's text and
its value. -/
def semanticOptionScore (isYesNo isRadio : Bool) (normalizedProfile : String)
    (option : DomOption) : Int :=
  let optionText := normalizeOption (nativeOptionText isRadio option)
  let optionValue := normalizeOption option.value
  if isYesNo then
    if optionText == normalizedProfile || optionValue == normalizedProfile
    then 100 else 0
  else
    jsMax (calculateOptionScore optionText normalizedProfile)
      (calculateOptionScore optionValue normalizedProfile)

/-- Loop body of trySemanticOptionMatch's scan: select placeholders (empty
value on a multi-option select) are skipped; the running best is replaced
only on a strictly larger score, keeping the first maximum. -/
def semanticStep (element : Element) (isYesNo isRadio : Bool)
    (normalizedProfile : String) (acc : Option DomOption × Int)
    (option : DomOption) : Option DomOption × Int :=
  if element.tagName == "SELECT" && option.value == ""
      && 1 < element.options.length then acc
  else
    let score := semanticOptionScore isYesNo isRadio normalizedProfile option
    if acc.2 < score then (some option, score) else acc

/-- Best candidate and score of trySemanticOptionMatch's scan (tier 2 of the
native select / radio matching). -/
def semanticBest (element : Element) (profileValue : String) :
    Option DomOption × Int :=
  let normalizedProfile := normalizeOption profileValue
  let isYesNo := normalizedProfile == "yes" || normalizedProfile == "no"
  let isRadio := element.etype == "radio"
  element.options.foldl (semanticStep element isYesNo isRadio normalizedProfile)
    (none, 0)

/-- trySemanticOptionMatch from the source: the best candidate is returned
only when its score reaches 0.6. -/
def trySemanticOptionMatch (element : Element) (profileValue : String) :
    Option DomOption :=
  let best := semanticBest element profileValue
  if 60 ≤ best.2 then best.1 else none

/-- Option selection order of fillField's select / radio branch: the alias
tier first, the semantic tier only when it found nothing. -/
def chooseOption (element : Element) (value : String)
    (fieldConfig : Option FieldConfig) : Option DomOption :=
  match tryAliasMatch element value fieldConfig with
  | some o => some o
  | none => trySemanticOptionMatch element value

/-- inputType as fillField computes it: element.type ? element.type
.toLowerCase() : element.tagName.toLowerCase(). -/
def elementInputType (element : Element) : String :=
  if element.etype ≠ "" then jsToLower element.etype else jsToLower element.tagName

/-- fillField from the source, as the truth value it returns (the DOM
assignment and event dispatch have no further effect on the engine's
output).  In order: a falsy value is refused; a numeric-expecting attribute
is refused on a number- or tel-typed control when the value fails the
numeric check; a date-expecting attribute on a date control succeeds exactly
when the formatted date is non-empty; selects and radios succeed when one of
the two option-matching tiers finds an option; every other control accepts
the value. -/
def fillField (element : Element) (value : String)
    (fieldConfig : Option FieldConfig) : Bool :=
  if value = "" then false
  else
    let inputType := elementInputType element
    if ((fieldConfig.map (·.isNumeric)).getD false
        && (inputType == "number" || inputType == "tel")
        && !isNumericValue value) then false
    else if (fieldConfig.map (·.isDate)).getD false && inputType == "date" then
      formatDateValue value inputType ≠ ""
    else if element.tagName == "SELECT" || inputType == "radio" then
      (chooseOption element value fieldConfig).isSome
    else true

/-- Target text list the Google Forms handlers build: the normalized profile
value alone, or, when some options-map concept's key or alias matches it,
all of that concept's variants normalized ([key, ...aliases]; the Set
de-duplication of the source does not change any-of matching and is kept
implicit). -/
def googleTargetTexts (normalizedProfile : String) (cfg : Option FieldConfig) :
    List String :=
  match cfg with
  | some c =>
    match c.options.find?
        (fun kv => (kv.1 :: kv.2).any fun v => normalizeOption v == normalizedProfile) with
    | some kv => (kv.1 :: kv.2).map normalizeOption
    | none => [normalizedProfile]
  | none => [normalizedProfile]

/-- Option selection of fillGoogleDropdownHybrid over the rendered option
texts: layer 1a picks the first option whose normalized text equals a target;
layer 1b the first option word-boundary-matched by a target longer than one
character; layer 2 the best fuzzy score when it reaches 0.6.  Options with
empty normalized text are skipped in every layer.  Returns the clicked
option's text. -/
def googleDropdownSelect (optionTexts : List String) (profileValue : String)
    (cfg : Option FieldConfig) : Option String :=
  let normalizedProfile := normalizeOption profileValue
  let targetTexts := googleTargetTexts normalizedProfile cfg
  match optionTexts.find? (fun o =>
      let nt := normalizeOption o
      nt ≠ "" && targetTexts.any fun t => nt == t) with
  | some o => some o
  | none =>
    match optionTexts.find? (fun o =>
        let nt := normalizeOption o
        nt ≠ "" && targetTexts.any fun t => 1 < t.length && matchesTarget nt t) with
    | some o => some o
    | none =>
      let best := optionTexts.foldl
        (fun (acc : Option String × Int) o =>
          let nt := normalizeOption o
          if nt = "" then acc
          else
            let score := calculateOptionScore nt normalizedProfile
            if acc.2 < score then (some o, score) else acc)
        (none, 0)
      if 60 ≤ best.2 then best.1 else none

/-- Option selection of fillGoogleRadioHybrid over the radio option labels
(the texts getGoogleRadioOptionText extracts): same three layers as the
dropdown handler.  Returns the clicked radio's label. -/
def googleRadioSelect (radioLabels : List String) (profileValue : String)
    (cfg : Option FieldConfig) : Option String :=
  let normalizedProfile := normalizeOption profileValue
  let targetTexts := googleTargetTexts normalizedProfile cfg
  match radioLabels.find? (fun o =>
      let nl := normalizeOption o
      nl ≠ "" && targetTexts.any fun t => nl == t) with
  | some o => some o
  | none =>
    match radioLabels.find? (fun o =>
        let nl := normalizeOption o
        nl ≠ "" && targetTexts.any fun t => 1 < t.length && matchesTarget nl t) with
    | some o => some o
    | none =>
      let best := radioLabels.foldl
        (fun (acc : Option String × Int) o =>
          let nl := normalizeOption o
          if nl = "" then acc
          else
            let score := calculateOptionScore nl normalizedProfile
            if acc.2 < score then (some o, score) else acc)
        (none, 0)
      if 60 ≤ best.2 then best.1 else none

/-- Field metadata record built in autofillPage's standard pass. -/
structure FieldData where
  label : String
  placeholder : String
  name : String
  id : String
  ftype : String

/-- Field metadata of a standard control: extracted label, lower-cased and
trimmed placeholder / name / id, element.type || tagName.toLowerCase(). -/
def mkFieldData (e : Element) : FieldData :=
  ⟨e.label, jsTrim (jsToLower e.placeholder), jsTrim (jsToLower e.name),
   jsTrim (jsToLower e.id),
   if e.etype ≠ "" then e.etype else jsToLower e.tagName⟩

/-- Result record of matchFieldToProfile.  rvalue is the resolved profile
value after the engine's truthiness filter (null when the match key is
missing, the score is below MEDIUM, or the profile holds nothing usable). -/
structure MatchRes where
  rvalue : Option String
  matchKey : Option String
  confidence : Fl
deriving DecidableEq

/-- Resolution step of matchFieldToProfile once findBestMatchWithScore's
result is in hand (the code from `if (bestMatch && score >= ...)` on): no
best match or a score below MEDIUM_CONFIDENCE returns an empty match,
otherwise the matched entry's path is resolved against the profile (value ||
null).  Factored into its own function so its properties hold for every
best-match result.  The none branch of the config lookup is unreachable: the
best match key always comes from FIELD_MAP. -/
def matchResolve (profile : ProfVal) (r : BestMatch) : MatchRes :=
  match r.bestMatch with
  | none => ⟨none, none, r.score⟩
  | some k =>
    if flLt r.score MEDIUM_CONFIDENCE then ⟨none, none, r.score⟩
    else
      match fieldMapLookup k with
      | some cfg => ⟨truthyValue (getValueByPath profile cfg.path), some k, r.score⟩
      | none => ⟨none, some k, r.score⟩

/-- matchFieldToProfile from the source: combine label, placeholder, name
and id into one lower-cased text, run the scoring engine, then resolve the
result as matchResolve describes. -/
def matchFieldToProfile (fd : FieldData) (profile : ProfVal) : MatchRes :=
  let combinedText :=
    jsToLower (fd.label ++ " " ++ fd.placeholder ++ " " ++ fd.name ++ " " ++ fd.id)
  matchResolve profile (findBestMatchWithScore combinedText)

/-- Per-field effect of one loop iteration of autofillPage, abstracting the
list pushes the source performs: a skipped record with its reason, a learned
fill, a high-confidence fill attempt (success records the field in
filledFields; failure records NOTHING), a pending confirmation, or no record
at all. -/
inductive Outcome where
  | skip (reason : String)
  | learned (key value : String)
  | fillAttempt (key value : String) (confidence : Fl) (success : Bool)
  | pending (key value : String) (confidence : Fl)
  | noRecord
deriving DecidableEq

/-- Confidence routing of autofillPage's standard pass once a match result is
in hand: value and key present and confidence at HIGH -> attempt the fill;
at MEDIUM -> pending confirmation; below MEDIUM with value and key is
unreachable (matchFieldToProfile nulls the key below MEDIUM) and records
nothing; no value or no key -> skipped with "low confidence" when the
confidence is below MEDIUM, else "no match". -/
def routeMatch (e : Element) (r : MatchRes) : Outcome :=
  match r.rvalue, r.matchKey with
  | some v, some k =>
    if flLe HIGH_CONFIDENCE r.confidence then
      Outcome.fillAttempt k v r.confidence (fillField e v (fieldMapLookup k))
    else if flLe MEDIUM_CONFIDENCE r.confidence then
      Outcome.pending k v r.confidence
    else Outcome.noRecord
  | _, _ =>
    Outcome.skip
      (if flLt r.confidence MEDIUM_CONFIDENCE then "low confidence" else "no match")

/-- Scoring branch of the standard pass. -/
def scoreAndRoute (e : Element) (profile : ProfVal) : Outcome :=
  routeMatch e (matchFieldToProfile (mkFieldData e) profile)

/-- Association lookup in the site's learned mappings object. -/
def lookupAssoc (m : List (String × String)) (k : String) : Option String :=
  (m.find? (·.1 == k)).map (·.2)

/-- labelText of the standard pass: label || placeholder || name || fieldId. -/
def standardLabelText (e : Element) (fieldId : String) : String :=
  let fd := mkFieldData e
  jsOr fd.label (jsOr fd.placeholder (jsOr fd.name fieldId))

/-- normalizedLabel of the standard pass: labelText.toLowerCase().trim(). -/
def standardNormalizedLabel (e : Element) (fieldId : String) : String :=
  jsTrim (jsToLower (standardLabelText e fieldId))

/-- One iteration of autofillPage's standard pass (pass 1) for one element:
the isSafeToFill guard, the unsafe-label guard, the learned-mapping lookup
(a hit fills directly from the stored key's profile value and skips scoring
only when the value is truthy AND the fill succeeds; otherwise the code falls
through to scoring), then confidence scoring and routing.  The learned branch
is written with Option.bind: FIELD_MAP[learnedKey] must exist and its path
must resolve to a truthy value, exactly the source's nested if (config) /
if (value && fillField(...)). -/
def processStandardField (e : Element) (fieldId : String) (profile : ProfVal)
    (maps : List (String × String)) : Outcome :=
  if isSafeToFill e = false then Outcome.skip "unsafe or already filled"
  else if isUnsafeLabel (standardLabelText e fieldId) then Outcome.skip "unsafe label"
  else
    match lookupAssoc maps (standardNormalizedLabel e fieldId) with
    | some learnedKey =>
      match (fieldMapLookup learnedKey).bind
          (fun cfg => truthyValue (getValueByPath profile cfg.path)) with
      | some v =>
        if fillField e v (fieldMapLookup learnedKey) then
          Outcome.learned learnedKey v
        else scoreAndRoute e profile
      | none => scoreAndRoute e profile
    | none => scoreAndRoute e profile

/-- Confidence routing of the Google Forms dropdown pass: same thresholds,
but a field with no usable match is skipped with reason "no match"
unconditionally. -/
def googleRouteDropdown (labelText : String) (optionTexts : List String)
    (profile : ProfVal) : Outcome :=
  let r := matchFieldToProfile ⟨labelText, "", "", "", "google-dropdown"⟩ profile
  match r.rvalue, r.matchKey with
  | some v, some k =>
    if flLe HIGH_CONFIDENCE r.confidence then
      Outcome.fillAttempt k v r.confidence
        (googleDropdownSelect optionTexts v (fieldMapLookup k)).isSome
    else if flLe MEDIUM_CONFIDENCE r.confidence then
      Outcome.pending k v r.confidence
    else Outcome.noRecord
  | _, _ => Outcome.skip "no match"

/-- One iteration of autofillPage's Google Forms dropdown pass for one
listbox: the heading text lower-cased and trimmed is the label; an empty or
unsafe label is skipped with reason "unsafe or empty label" before anything
else; a learned mapping fills through the dropdown handler and skips scoring
only when it actually selected an option; otherwise scoring and routing. -/
def processGoogleDropdown (headingText : String) (optionTexts : List String)
    (profile : ProfVal) (maps : List (String × String)) : Outcome :=
  let labelText := jsTrim (jsToLower headingText)
  if labelText = "" || isUnsafeLabel labelText then
    Outcome.skip "unsafe or empty label"
  else
    match lookupAssoc maps labelText with
    | some learnedKey =>
      match (fieldMapLookup learnedKey).bind
          (fun cfg => truthyValue (getValueByPath profile cfg.path)) with
      | some v =>
        if (googleDropdownSelect optionTexts v (fieldMapLookup learnedKey)).isSome then
          Outcome.learned learnedKey v
        else googleRouteDropdown labelText optionTexts profile
      | none => googleRouteDropdown labelText optionTexts profile
    | none => googleRouteDropdown labelText optionTexts profile

/-- Confidence routing of the Google Forms radio pass. -/
def googleRouteRadio (labelText : String) (radioLabels : List String)
    (profile : ProfVal) : Outcome :=
  let r := matchFieldToProfile ⟨labelText, "", "", "", "google-radio"⟩ profile
  match r.rvalue, r.matchKey with
  | some v, some k =>
    if flLe HIGH_CONFIDENCE r.confidence then
      Outcome.fillAttempt k v r.confidence
        (googleRadioSelect radioLabels v (fieldMapLookup k)).isSome
    else if flLe MEDIUM_CONFIDENCE r.confidence then
      Outcome.pending k v r.confidence
    else Outcome.noRecord
  | _, _ => Outcome.skip "no match"

/-- One iteration of autofillPage's Google Forms radio pass for one question
container, mirroring the dropdown pass with fillGoogleRadioHybrid. -/
def processGoogleRadio (headingText : String) (radioLabels : List String)
    (profile : ProfVal) (maps : List (String × String)) : Outcome :=
  let labelText := jsTrim (jsToLower headingText)
  if labelText = "" || isUnsafeLabel labelText then
    Outcome.skip "unsafe or empty label"
  else
    match lookupAssoc maps labelText with
    | some learnedKey =>
      match (fieldMapLookup learnedKey).bind
          (fun cfg => truthyValue (getValueByPath profile cfg.path)) with
      | some v =>
        if (googleRadioSelect radioLabels v (fieldMapLookup learnedKey)).isSome then
          Outcome.learned learnedKey v
        else googleRouteRadio labelText radioLabels profile
      | none => googleRouteRadio labelText radioLabels profile
    | none => googleRouteRadio labelText radioLabels profile

/-- Reference weighted score as the specification states it, in EXACT
decimal arithmetic (integer hundredths): 0.6 for every primary term whose
full tokenization is contained in the token set, 0.3 per secondary, 0.15 per
generic, minus 0.4 per negative, the total clamped to [0, 1].  The program's
binary64 accumulation deviates from this on reachable inputs (see the C1
counterexample). -/
def specWeightedScore (tokens : List String) (config : FieldConfig) : Int :=
  let hits := fun (l : List String) => ((l.filter (keywordHit tokens)).length : Int)
  let raw := 60 * hits config.primary + 30 * hits config.secondary
    + 15 * hits config.generic - 40 * hits config.negative
  jsMax 0 (jsMin raw 100)

/-- Iterated binary64 addition of the same constant: one addition per hit. -/
def flIterAdd (c : Fl) : Nat → Fl → Fl
  | 0, a => a
  | k + 1, a => flIterAdd c k (flAdd a c)

/-- Iterated binary64 subtraction of the same constant: one subtraction per
hit. -/
def flIterSub (c : Fl) : Nat → Fl → Fl
  | 0, a => a
  | k + 1, a => flIterSub c k (flSub a c)

/-- Reference weighted score in the program's own arithmetic: each primary
term whose full tokenization is contained in the token set contributes one
binary64 addition of 0.6, each secondary one of 0.3, each generic one of
0.15, each negative one subtraction of 0.4 — in phase order, as the source
accumulates them — and the total is clamped to [0, 1].  The score depends
only on the four hit counts. -/
def specWeightedScoreFl (tokens : List String) (config : FieldConfig) : Fl :=
  let p := (config.primary.filter (keywordHit tokens)).length
  let s := (config.secondary.filter (keywordHit tokens)).length
  let g := (config.generic.filter (keywordHit tokens)).length
  let n := (config.negative.filter (keywordHit tokens)).length
  flMax fl0 (flMin (flIterSub fl04 n
    (flIterAdd fl015 g (flIterAdd fl03 s (flIterAdd fl06 p fl0)))) fl1)

/-- The email catalog entry, read off FIELD_MAP. -/
def emailEntryCfg : FieldConfig :=
  (fieldMapLookup "email").getD { path := "" }

/-- Reference semantic option score as the specification states it, in
hundredths: 1.0 on exact equality, 0.8 when the target contains the query,
0.7 when the query contains the target, otherwise min(0.6, sharedTokenCount
* 0.2) when at least one query token occurs among the target's tokens and 0
when none. -/
def specOptionScore (target query : String) : Int :=
  if target = query then 100
  else if strHas target query then 80
  else if strHas query target then 70
  else
    let shared := (splitSpace query).filter fun t => (splitSpace target).contains t
    if 0 < shared.length then jsMin 60 ((shared.length : Int) * 20)
    else 0

/-!
Helper lemmas shared by the claim theorems.
-/

/-- Anchor-gate failure condition of the claim: a non-empty numericAnchors
list with no anchor fully matched, or a non-empty requiredAnchors list with
no anchor fully matched, or a non-empty exclusionAnchors list with some
anchor fully matched. -/
def anchorGateFails (tokens : List String) (config : FieldConfig) : Bool :=
  (!config.numericAnchors.isEmpty && !hasNumericAnchor tokens config.numericAnchors) ||
  (!config.requiredAnchors.isEmpty && !hasNumericAnchor tokens config.requiredAnchors) ||
  (!config.exclusionAnchors.isEmpty && hasNumericAnchor tokens config.exclusionAnchors)

/-- The graduation_percentage catalog entry, read off FIELD_MAP. -/
def gradEntryCfg : FieldConfig :=
  (fieldMapLookup "graduation_percentage").getD { path := "" }

/-- Standard text input whose combined field text scores 0.6 (one primary
hit, exact in binary64) for the name entry: inside [MEDIUM, HIGH). -/
def c3Element : Element := { etype := "text", label := "name" }

/-- Standard text input whose combined field text accumulates, for the email
entry, 0.6 + 0.3 - 0.4 = 0.4999999999999999 in binary64 (primary "email",
secondary "contact email", negative "alternate") — strictly below the exact
0.5 of the decimal reference. -/
def c1Element : Element := { etype := "text", label := "email contact alternate" }

/-- Profile carrying a value for personal.name. -/
def c3nProfile : ProfVal :=
  ProfVal.obj [("personal", ProfVal.obj [("name", ProfVal.str "Jo")])]

/-- Profile carrying a value for personal.email. -/
def c3Profile : ProfVal :=
  ProfVal.obj [("personal", ProfVal.obj [("email", ProfVal.str "a@b.c")])]

/-- Safe text input carrying an unsafe label. -/
def c4Element : Element := { etype := "text", label := "declaration" }

/-- Unsafe-labeled select ALREADY HOLDING a value: isSafeToFill accepts it
through the SELECT branch, so the unsafe-label gate is what skips it. -/
def c4SelectElement : Element :=
  { tagName := "SELECT", etype := "select-one", value := "yes",
    label := "i agree to the terms",
    options := [{ text := "yes", value := "yes" }] }

/-- Standard text input labelled "full name". -/
def c5Element : Element := { etype := "text", label := "full name" }

/-- Profile with personal.name set and no personal.email. -/
def c5Profile : ProfVal :=
  ProfVal.obj [("personal", ProfVal.obj [("name", ProfVal.str "John")])]

/-- Learned mapping sending the label "full name" to the email attribute. -/
def c5Maps : List (String × String) := [("full name", "email")]

/-- Learned mapping sending the label "full name" to the name attribute. -/
def c5wMaps : List (String × String) := [("full name", "name")]

/-- Select labelled "full name" that already shows a selection: the program
still consults learned mappings for it (selects are always eligible), and
its option list lets the learned fill succeed through the semantic tier. -/
def c5wElement : Element :=
  { tagName := "SELECT", etype := "select-one", value := "Jane",
    label := "full name",
    options := [{ text := "Jane", value := "Jane" },
                { text := "John", value := "John" }] }

/-- Select labelled "full name" holding a selection, for the C9 witness: the
name entry matches at high confidence but the profile carries no value. -/
def c9SelectElement : Element :=
  { tagName := "SELECT", etype := "select-one", value := "Jane",
    label := "full name",
    options := [{ text := "Jane", value := "Jane" }] }

/-- Native select whose single option's text strictly contains the alias
"male" without being equal to any alias. -/
def c6Element : Element :=
  { tagName := "SELECT", etype := "select-one",
    options := [{ text := "malevolent", value := "zzz" }] }

/-- Native gender select with a literal "Male" option. -/
def c6wElement : Element :=
  { tagName := "SELECT", etype := "select-one",
    options := [{ text := "Male", value := "Male" }] }

/-- Native single-option select offering a literal "No" option. -/
def c7wElement : Element :=
  { tagName := "SELECT", etype := "select-one",
    options := [{ text := "No", value := "no" }] }

/-- Native select whose option "pune city" is matched for the value "pune"
through the 0.8 containment score. -/
def c8Element : Element :=
  { tagName := "SELECT", etype := "select-one",
    options := [{ text := "pune city", value := "pc" }] }

/-- Standard text input labelled "full name" (scores 1.0 for the name
entry). -/
def c9Element : Element := { etype := "text", label := "full name" }

/-- Number-typed input whose combined text scores 1.0 for backlog_count. -/
def c10Element : Element :=
  { etype := "number", label := "no of active backlog backlog count" }

/-- Text-typed input with the same label. -/
def c10TextElement : Element :=
  { etype := "text", label := "no of active backlog backlog count" }

/-- Profile whose academics.backlog_count is the non-numeric string "two". -/
def c10Profile : ProfVal :=
  ProfVal.obj [("academics", ProfVal.obj [("backlog_count", ProfVal.str "two")])]

/-- backlog_count catalog entry, read off FIELD_MAP. -/
def backlogCfg : FieldConfig :=
  (fieldMapLookup "backlog_count").getD { path := "" }

/-!
Claim theorems, their helper lemmas, witnesses and counterexamples.
-/

/-- A conditional binary64-add foldl equals iterating the addition once per
hit, in list order. -/
lemma foldl_flAdd_hits (c : Fl) (p : String → Bool) :
    ∀ (l : List String) (a : Fl),
      l.foldl (fun s kw => if p kw then flAdd s c else s) a
        = flIterAdd c (l.filter p).length a := by
  intro l
  induction l with
  | nil => intro a; simp [flIterAdd]
  | cons h t ih =>
    intro a
    by_cases hp : p h <;> simp [hp, ih, flIterAdd]

/-- A conditional binary64-subtract foldl equals iterating the subtraction
once per hit, in list order. -/
lemma foldl_flSub_hits (c : Fl) (p : String → Bool) :
    ∀ (l : List String) (a : Fl),
      l.foldl (fun s kw => if p kw then flSub s c else s) a
        = flIterSub c (l.filter p).length a := by
  intro l
  induction l with
  | nil => intro a; simp [flIterSub]
  | cons h t ih =>
    intro a
    by_cases hp : p h <;> simp [hp, ih, flIterSub]

/-- minInt is symmetric. -/
lemma minInt_comm (x y : Int) : minInt x y = minInt y x := by
  unfold minInt
  split_ifs <;> omega

/-- Totality of the binary64 order: not strictly less means at least in the
other direction. -/
lemma flLt_false_le (a b : Fl) (h : flLt a b = false) : flLe b a = true := by
  unfold flLt at h
  unfold flLe
  rw [minInt_comm b.e a.e]
  simp only [decide_eq_false_iff_not, not_lt, decide_eq_true_eq] at h ⊢
  omega

/-- The binary64 order is antisymmetric with its strict version. -/
lemma flLe_flLt_absurd (a b : Fl) (h1 : flLe a b = true) (h2 : flLt b a = true) :
    False := by
  unfold flLe at h1
  unfold flLt at h2
  rw [minInt_comm b.e a.e] at h2
  simp only [decide_eq_true_eq] at h1 h2
  omega

/-- The binary64 order is reflexive. -/
lemma flLe_refl (a : Fl) : flLe a a = true := by
  simp [flLe, minInt]

/-- The clamp Math.max(0, Math.min(x, 1.0)) always lands in [0, 1]. -/
lemma flClamp_bounds (x : Fl) :
    flLe fl0 (flMax fl0 (flMin x fl1)) = true ∧
    flLe (flMax fl0 (flMin x fl1)) fl1 = true := by
  constructor
  · unfold flMax
    by_cases h : flLe fl0 (flMin x fl1) = true
    · rw [if_pos h]; exact h
    · rw [if_neg h]; exact flLe_refl fl0
  · unfold flMax
    by_cases h : flLe fl0 (flMin x fl1) = true
    · rw [if_pos h]
      unfold flMin
      by_cases h2 : flLe x fl1 = true
      · rw [if_pos h2]; exact h2
      · rw [if_neg h2]; exact flLe_refl fl1
    · rw [if_neg h]; decide

/-- In an association list whose keys are distinct, one key determines its
value. -/
lemma pairs_nodup_unique {α β : Type} [DecidableEq α] :
    ∀ (l : List (α × β)), (l.map Prod.fst).Nodup →
      ∀ (a : α) (b1 b2 : β), (a, b1) ∈ l → (a, b2) ∈ l → b1 = b2 := by
  intro l
  induction l with
  | nil => intro _ a b1 b2 h1; cases h1
  | cons e t ih =>
    intro hnd a b1 b2 h1 h2
    rw [List.map_cons, List.nodup_cons] at hnd
    rcases List.mem_cons.mp h1 with h1 | h1 <;>
      rcases List.mem_cons.mp h2 with h2 | h2
    · rw [← h2] at h1; exact congrArg Prod.snd h1
    · exfalso
      apply hnd.1
      rw [show e.1 = a from congrArg Prod.fst h1.symm]
      exact List.mem_map.mpr ⟨(a, b2), h2, rfl⟩
    · exfalso
      apply hnd.1
      rw [show e.1 = a from congrArg Prod.fst h2.symm]
      exact List.mem_map.mpr ⟨(a, b1), h1, rfl⟩
    · exact ih hnd.2 a b1 b2 h1 h2

/-- An entry whose anchor gate fails leaves the best-match accumulator
untouched: the loop body skips it before scoring. -/
lemma bestMatchStep_gate (tokens : List String) (k : String) (cfg : FieldConfig)
    (acc : BestMatch) (h : anchorGateFails tokens cfg = true) :
    bestMatchStep tokens acc (k, cfg) = acc := by
  unfold bestMatchStep
  by_cases hn : hasNumericAnchor tokens cfg.numericAnchors
  · by_cases hr : (!cfg.requiredAnchors.isEmpty
        && !hasNumericAnchor tokens cfg.requiredAnchors) = true
    · simp [hn, hr]
    · by_cases hx : (!cfg.exclusionAnchors.isEmpty
          && hasNumericAnchor tokens cfg.exclusionAnchors) = true
      · simp [hn, hr, hx]
      · exfalso
        unfold anchorGateFails at h
        simp [hn, hr, hx] at h
  · simp [hn]

/-- The best-match fold never elects a key all of whose catalog entries fail
the anchor gate. -/
lemma foldl_best_ne (tokens : List String) (key : String) :
    ∀ (l : List (String × FieldConfig)) (acc : BestMatch),
      (∀ c, (key, c) ∈ l → anchorGateFails tokens c = true) →
      acc.bestMatch ≠ some key →
      (l.foldl (bestMatchStep tokens) acc).bestMatch ≠ some key := by
  intro l
  induction l with
  | nil => intro acc _ hacc; simpa using hacc
  | cons e t ih =>
    intro acc hl hacc
    rw [List.foldl_cons]
    apply ih
    · intro c hc; exact hl c (List.mem_cons_of_mem _ hc)
    · rcases e with ⟨k', c'⟩
      by_cases hk : k' = key
      · subst hk
        rw [bestMatchStep_gate tokens k' c' acc (hl c' (List.mem_cons_self _ _))]
        exact hacc
      · unfold bestMatchStep
        split_ifs with c1 c2 c3
        · exact hacc
        · exact hacc
        · exact hacc
        · by_cases hlt : flLt acc.score (calculateAdvancedScore tokens c') = true
          · simp [hlt, hk]
          · simpa [hlt] using hacc

set_option maxRecDepth 8000 in
/-- Counterexample for C1: on the email entry with the reachable token list
[email, contact, alternate] (one primary, one secondary and one negative
hit), the specification's exact weighted reference gives exactly 0.5 (50
hundredths), but the program's binary64 accumulation 0.6 + 0.3 - 0.4
evaluates to 4503599627370495 * 2^-53 = 0.4999999999999999, which is not the
double 0.5 and lies strictly below it. -/
theorem C1_weighted_score_counterexample :
    specWeightedScore ["email", "contact", "alternate"] emailEntryCfg = 50 ∧
    calculateAdvancedScore ["email", "contact", "alternate"] emailEntryCfg
      = ⟨4503599627370495, -53⟩ ∧
    (⟨4503599627370495, -53⟩ : Fl) ≠ MEDIUM_CONFIDENCE ∧
    flLt ⟨4503599627370495, -53⟩ MEDIUM_CONFIDENCE = true :=
  ⟨by decide, by decide, by decide, by decide⟩

/-- C1 (amended): for every token list and every catalog entry, the weighted
score equals the reference definition carried out in the program's binary64
arithmetic — each primary term whose full tokenization is contained in the
field's token set contributes one addition of 0.6, each such secondary one of
0.3, each generic one of 0.15 and each negative one subtraction of 0.4, in
phase order, so the score depends only on the four hit counts but can differ
from exact decimal arithmetic by rounding — and the clamped result always
lies in [0, 1] even with many negative-term hits. -/
theorem C1_weighted_score_float_spec (tokens : List String) (config : FieldConfig) :
    calculateAdvancedScore tokens config = specWeightedScoreFl tokens config ∧
    flLe fl0 (calculateAdvancedScore tokens config) = true ∧
    flLe (calculateAdvancedScore tokens config) fl1 = true := by
  refine ⟨?_, ?_, ?_⟩
  · simp only [calculateAdvancedScore, specWeightedScoreFl,
      foldl_flAdd_hits, foldl_flSub_hits]
  · simp only [calculateAdvancedScore]
    exact (flClamp_bounds _).1
  · simp only [calculateAdvancedScore]
    exact (flClamp_bounds _).2

/-- C2: anchor gating is total over the catalog.  For every field text and
every catalog entry, if the entry's numericAnchors is non-empty with no
anchor fully present, or its requiredAnchors is non-empty with none fully
matched, or its exclusionAnchors is non-empty with some anchor fully matched,
then the entry is skipped before scoring (bestMatchStep_gate) and can never
be the winning match for that field, whatever its weighted score would be. -/
theorem C2_anchor_gating_total (fieldText key : String) (config : FieldConfig)
    (hmem : (key, config) ∈ FIELD_MAP)
    (hgate : anchorGateFails (tokenize fieldText) config = true) :
    (findBestMatchWithScore fieldText).bestMatch ≠ some key := by
  unfold findBestMatchWithScore
  apply foldl_best_ne
  · intro c hc
    have hcc : c = config :=
      pairs_nodup_unique FIELD_MAP (by decide) key c config hc hmem
    rwa [hcc]
  · simp

/-- Witness for C2: the field text "aggregate percentage cgpa" trips the
exclusion anchor cgpa of graduation_percentage, so that entry cannot win for
this field even though its keyword score would be high. -/
theorem C2_anchor_gating_total_witness :
    ("graduation_percentage", gradEntryCfg) ∈ FIELD_MAP ∧
    anchorGateFails (tokenize "aggregate percentage cgpa") gradEntryCfg = true ∧
    (findBestMatchWithScore "aggregate percentage cgpa").bestMatch
      ≠ some "graduation_percentage" :=
  ⟨by decide, by decide,
   C2_anchor_gating_total "aggregate percentage cgpa" "graduation_percentage"
     gradEntryCfg (by decide) (by decide)⟩

/-- The resolution step either returns no key and no value, or its
confidence is at least MEDIUM_CONFIDENCE: it nulls both fields whenever
nothing scored or the best score is below the threshold. -/
lemma matchResolve_shape (profile : ProfVal) (r : BestMatch) :
    ((matchResolve profile r).matchKey = none ∧
     (matchResolve profile r).rvalue = none) ∨
    flLe MEDIUM_CONFIDENCE (matchResolve profile r).confidence = true := by
  rcases r with ⟨bm, sc⟩
  rcases bm with _ | k
  · left; exact ⟨rfl, rfl⟩
  · by_cases hlt : flLt sc MEDIUM_CONFIDENCE = true
    · left
      constructor <;> simp [matchResolve, hlt]
    · have hlt' : flLt sc MEDIUM_CONFIDENCE = false := by simpa using hlt
      right
      rcases hcfg : fieldMapLookup k with _ | cfg <;>
        simp [matchResolve, hlt', hcfg, flLt_false_le _ _ hlt']

/-- matchFieldToProfile either returns no key and no value, or its confidence
is at least MEDIUM_CONFIDENCE: the engine nulls both fields whenever nothing
scored or the best score is below the threshold. -/
lemma matchFieldToProfile_shape (fd : FieldData) (profile : ProfVal) :
    ((matchFieldToProfile fd profile).matchKey = none ∧
     (matchFieldToProfile fd profile).rvalue = none) ∨
    flLe MEDIUM_CONFIDENCE (matchFieldToProfile fd profile).confidence = true :=
  matchResolve_shape profile
    (findBestMatchWithScore
      (jsToLower (fd.label ++ " " ++ fd.placeholder ++ " " ++ fd.name ++ " " ++ fd.id)))

/-- Under the three guards (safe control, safe label, no learned mapping for
the normalized label) the standard pass reduces to scoring and routing. -/
lemma processStandardField_scoring (e : Element) (fid : String) (profile : ProfVal)
    (maps : List (String × String))
    (hsafe : isSafeToFill e = true)
    (hulab : isUnsafeLabel (standardLabelText e fid) = false)
    (hmiss : lookupAssoc maps (standardNormalizedLabel e fid) = none) :
    processStandardField e fid profile maps = scoreAndRoute e profile := by
  unfold processStandardField
  rw [hsafe, hmiss]
  simp [hulab]

/-- C3: routing obeys the two thresholds (0.75 and 0.5, both exact in
binary64) on the standard pass.  For a field that reaches scoring: a matched
key implies the confidence is at least MEDIUM; with a matched attribute and
resolvable value, a confidence at HIGH attempts the immediate fill and
anything strictly below HIGH (hence in [MEDIUM, HIGH), including exactly
MEDIUM = 0.5) is enqueued as pending without filling; without a value or key
the field is skipped with reason "low confidence" below MEDIUM and "no match"
otherwise; and below MEDIUM there is never a matched key, so the skip reason
is "low confidence". -/
theorem C3_confidence_routing (e : Element) (fid : String) (profile : ProfVal)
    (maps : List (String × String)) (r : MatchRes)
    (hsafe : isSafeToFill e = true)
    (hulab : isUnsafeLabel (standardLabelText e fid) = false)
    (hmiss : lookupAssoc maps (standardNormalizedLabel e fid) = none)
    (hr : matchFieldToProfile (mkFieldData e) profile = r) :
    (∀ k, r.matchKey = some k → flLe MEDIUM_CONFIDENCE r.confidence = true) ∧
    (∀ v k, r.rvalue = some v → r.matchKey = some k →
      (flLe HIGH_CONFIDENCE r.confidence = true →
        processStandardField e fid profile maps =
          Outcome.fillAttempt k v r.confidence (fillField e v (fieldMapLookup k))) ∧
      (flLt r.confidence HIGH_CONFIDENCE = true →
        processStandardField e fid profile maps = Outcome.pending k v r.confidence)) ∧
    ((r.rvalue = none ∨ r.matchKey = none) →
      processStandardField e fid profile maps =
        Outcome.skip
          (if flLt r.confidence MEDIUM_CONFIDENCE then "low confidence"
           else "no match")) ∧
    (flLt r.confidence MEDIUM_CONFIDENCE = true →
      r.matchKey = none ∧
      processStandardField e fid profile maps = Outcome.skip "low confidence") := by
  have hroute : processStandardField e fid profile maps = routeMatch e r := by
    rw [processStandardField_scoring e fid profile maps hsafe hulab hmiss]
    unfold scoreAndRoute
    rw [hr]
  have hmed : ∀ k, r.matchKey = some k → flLe MEDIUM_CONFIDENCE r.confidence = true := by
    intro k hk
    rcases matchFieldToProfile_shape (mkFieldData e) profile with ⟨h1, _⟩ | h2
    · rw [hr] at h1; rw [h1] at hk; cases hk
    · rwa [hr] at h2
  have hskip : (r.rvalue = none ∨ r.matchKey = none) →
      processStandardField e fid profile maps =
        Outcome.skip
          (if flLt r.confidence MEDIUM_CONFIDENCE then "low confidence"
           else "no match") := by
    intro hnm
    rw [hroute]
    rcases hnm with hv | hk
    · simp only [routeMatch, hv]
    · rcases hrv : r.rvalue with _ | v'
      · simp only [routeMatch, hrv]
      · simp only [routeMatch, hrv, hk]
  refine ⟨hmed, ?_, hskip, ?_⟩
  · intro v k hv hk
    constructor
    · intro hh
      rw [hroute]
      simp only [routeMatch, hv, hk]
      rw [if_pos hh]
    · intro hl
      rw [hroute]
      simp only [routeMatch, hv, hk]
      rw [if_neg (fun hcon => flLe_flLt_absurd _ _ hcon hl), if_pos (hmed k hk)]
  · intro hlow
    have hkey : r.matchKey = none := by
      rcases hkk : r.matchKey with _ | k
      · rfl
      · exact absurd hlow (fun hcon => flLe_flLt_absurd _ _ (hmed k hkk) hcon)
    refine ⟨hkey, ?_⟩
    rw [hskip (Or.inr hkey), if_pos hlow]

set_option maxRecDepth 8000 in
/-- Witness for C3: the concrete field's combined text scores the binary64
value 0.6 (one primary hit, exact) for the name entry — inside [0.5, 0.75) —
with a matched attribute and resolvable value, and is routed to pending, not
filled. -/
theorem C3_confidence_routing_witness :
    matchFieldToProfile (mkFieldData c3Element) c3nProfile
      = ⟨some "Jo", some "name", fl06⟩ ∧
    flLe MEDIUM_CONFIDENCE fl06 = true ∧ flLt fl06 HIGH_CONFIDENCE = true ∧
    processStandardField c3Element "field_0" c3nProfile [] =
      Outcome.pending "name" "Jo" fl06 :=
  ⟨by decide, by decide, by decide,
   ((C3_confidence_routing c3Element "field_0" c3nProfile []
       ⟨some "Jo", some "name", fl06⟩ (by decide) (by decide) (by decide)
       (by decide)).2.1 "Jo" "name" rfl rfl).2 (by decide)⟩

/-- Counterexample for C4: on the Google Forms dropdown path an unsafe label
is skipped with recorded reason "unsafe or empty label", not "unsafe label"
as the claim states for every path. -/
theorem C4_unsafe_label_counterexample :
    isUnsafeLabel (jsTrim (jsToLower "Signature")) = true ∧
    processGoogleDropdown "Signature" ["x"] (ProfVal.obj []) [] =
      Outcome.skip "unsafe or empty label" ∧
    ("unsafe or empty label" : String) ≠ "unsafe label" :=
  ⟨by decide, by decide, by decide⟩

/-- C4 (amended): a field whose label matches the unsafe-phrase deny list is
skipped unconditionally before any scoring on every processing path,
regardless of the profile and of any learned mapping; the recorded reason is
"unsafe label" on the standard pass and "unsafe or empty label" on the
Google Forms dropdown and radio passes. -/
theorem C4_unsafe_label_gate :
    (∀ (e : Element) (fid : String) (profile : ProfVal) (maps : List (String × String)),
      isSafeToFill e = true →
      isUnsafeLabel (standardLabelText e fid) = true →
      processStandardField e fid profile maps = Outcome.skip "unsafe label") ∧
    (∀ (heading : String) (opts : List String) (profile : ProfVal)
        (maps : List (String × String)),
      isUnsafeLabel (jsTrim (jsToLower heading)) = true →
      processGoogleDropdown heading opts profile maps =
        Outcome.skip "unsafe or empty label") ∧
    (∀ (heading : String) (radios : List String) (profile : ProfVal)
        (maps : List (String × String)),
      isUnsafeLabel (jsTrim (jsToLower heading)) = true →
      processGoogleRadio heading radios profile maps =
        Outcome.skip "unsafe or empty label") := by
  refine ⟨?_, ?_, ?_⟩
  · intro e fid profile maps hsafe hlab
    unfold processStandardField
    rw [hsafe]
    simp [hlab]
  · intro heading opts profile maps hlab
    unfold processGoogleDropdown
    simp [hlab]
  · intro heading radios profile maps hlab
    unfold processGoogleRadio
    simp [hlab]

/-- Witness for C4: concrete unsafe labels are skipped on all three paths
with the path's reason string, before any scoring; the gate applies also to a
select control that already holds a selection, which isSafeToFill lets
through unconditionally. -/
theorem C4_unsafe_label_gate_witness :
    isSafeToFill c4Element = true ∧
    isUnsafeLabel (standardLabelText c4Element "field_0") = true ∧
    processStandardField c4Element "field_0" (ProfVal.obj []) [] =
      Outcome.skip "unsafe label" ∧
    isSafeToFill c4SelectElement = true ∧
    c4SelectElement.value ≠ "" ∧
    processStandardField c4SelectElement "field_1" (ProfVal.obj []) [] =
      Outcome.skip "unsafe label" ∧
    processGoogleDropdown "I Agree" ["yes"] (ProfVal.obj []) [] =
      Outcome.skip "unsafe or empty label" ∧
    processGoogleRadio "upload your resume" ["a"] (ProfVal.obj []) [] =
      Outcome.skip "unsafe or empty label" :=
  ⟨by decide, by decide,
   C4_unsafe_label_gate.1 c4Element "field_0" (ProfVal.obj []) [] (by decide) (by decide),
   by decide, by decide,
   C4_unsafe_label_gate.1 c4SelectElement "field_1" (ProfVal.obj []) []
     (by decide) (by decide),
   C4_unsafe_label_gate.2.1 "I Agree" ["yes"] (ProfVal.obj []) [] (by decide),
   C4_unsafe_label_gate.2.2 "upload your resume" ["a"] (ProfVal.obj []) [] (by decide)⟩

set_option maxRecDepth 8000 in
/-- Counterexample for C5: the learned mapping hits for this field, its
stored key resolves to an empty profile value, and instead of being left
unfilled the field falls through to catalog scoring and is filled from the
catalog's own best match "name" (not the stored key "email"). -/
theorem C5_learned_shortcircuit_counterexample :
    lookupAssoc c5Maps (standardNormalizedLabel c5Element "field_0") = some "email" ∧
    (fieldMapLookup "email").bind
      (fun cfg => truthyValue (getValueByPath c5Profile cfg.path)) = none ∧
    processStandardField c5Element "field_0" c5Profile c5Maps =
      Outcome.fillAttempt "name" "John" fl1 true ∧
    ("name" : String) ≠ "email" :=
  ⟨by decide, by decide, by decide, by decide⟩

/-- C5 (amended): the learned-mapping lookup happens before scoring, and a
hit short-circuits scoring exactly when the stored key's catalog entry
resolves to a non-empty profile value and the fill succeeds; otherwise (no
catalog entry, empty resolved value, or failed fill) the field falls through
to normal catalog scoring and routing.  Learned mappings are written only by
the popup's explicit confirmation flow, outside this engine. -/
theorem C5_learned_shortcircuit (e : Element) (fid : String) (profile : ProfVal)
    (maps : List (String × String)) (k : String)
    (hsafe : isSafeToFill e = true)
    (hulab : isUnsafeLabel (standardLabelText e fid) = false)
    (hhit : lookupAssoc maps (standardNormalizedLabel e fid) = some k) :
    (∀ v, (fieldMapLookup k).bind
        (fun cfg => truthyValue (getValueByPath profile cfg.path)) = some v →
      (fillField e v (fieldMapLookup k) = true →
        processStandardField e fid profile maps = Outcome.learned k v) ∧
      (fillField e v (fieldMapLookup k) = false →
        processStandardField e fid profile maps = scoreAndRoute e profile)) ∧
    ((fieldMapLookup k).bind
        (fun cfg => truthyValue (getValueByPath profile cfg.path)) = none →
      processStandardField e fid profile maps = scoreAndRoute e profile) := by
  have hbase : ∀ (out : Outcome),
      (match (fieldMapLookup k).bind
          (fun cfg => truthyValue (getValueByPath profile cfg.path)) with
        | some v => if fillField e v (fieldMapLookup k) then Outcome.learned k v
                    else scoreAndRoute e profile
        | none => scoreAndRoute e profile) = out →
      processStandardField e fid profile maps = out := by
    intro out hout
    unfold processStandardField
    rw [hsafe, hhit]
    simpa [hulab] using hout
  refine ⟨?_, ?_⟩
  · intro v hv
    constructor
    · intro hfill
      apply hbase
      rw [hv]
      simp [hfill]
    · intro hfill
      apply hbase
      rw [hv]
      simp [hfill]
  · intro hv
    apply hbase
    rw [hv]

/-- Witness for C5: with a learned mapping whose stored key resolves to a
non-empty value and whose fill succeeds, the field is filled from the stored
key without scoring — here a select control that already shows a selection,
which the engine still processes because selects are always eligible. -/
theorem C5_learned_shortcircuit_witness :
    isSafeToFill c5wElement = true ∧
    c5wElement.value ≠ "" ∧
    lookupAssoc c5wMaps (standardNormalizedLabel c5wElement "field_0") = some "name" ∧
    (fieldMapLookup "name").bind
      (fun cfg => truthyValue (getValueByPath c5Profile cfg.path)) = some "John" ∧
    fillField c5wElement "John" (fieldMapLookup "name") = true ∧
    processStandardField c5wElement "field_0" c5Profile c5wMaps =
      Outcome.learned "name" "John" :=
  ⟨by decide, by decide, by decide, by decide, by decide,
   ((C5_learned_shortcircuit c5wElement "field_0" c5Profile c5wMaps "name"
       (by decide) (by decide) (by decide)).1 "John" (by decide)).1 (by decide)⟩

/-- Counterexample for C6: the alias tier selects the option "malevolent"
for the profile value "Male" because the option text CONTAINS the alias
"male" as a substring, although neither the normalized profile value nor any
alias of its concept EQUALS the option's normalized text or value. -/
theorem C6_alias_equality_counterexample :
    tryAliasMatch c6Element "Male" (fieldMapLookup "gender")
      = some { text := "malevolent", value := "zzz" } ∧
    (∀ al ∈ conceptAliases
        ((fieldMapLookup "gender").getD { path := "" }).options
        (normalizeOption "Male"),
      normalizeOption al ≠ normalizeOption "malevolent" ∧
      normalizeOption al ≠ normalizeOption "zzz") ∧
    normalizeOption "Male" ≠ normalizeOption "malevolent" ∧
    normalizeOption "Male" ≠ normalizeOption "zzz" :=
  ⟨by decide, by decide, by decide, by decide⟩

/-- C6 (amended): in the native alias tier an option is chosen exactly from
the concept whose canonical key or alias list matches the profile value, and
only when some alias of that concept is a SUBSTRING of the option's
normalized text or EQUALS its normalized underlying value attribute; and the
alias tier is evaluated before the semantic-fallback tier (an alias hit is
what fillField's selection uses, the semantic tier is never consulted). -/
theorem C6_alias_tier_soundness (e : Element) (v : String)
    (cfg : Option FieldConfig) (o : DomOption)
    (h : tryAliasMatch e v cfg = some o) :
    chooseOption e v cfg = some o ∧
    ∃ c, cfg = some c ∧
      ∃ al ∈ conceptAliases c.options (normalizeOption v),
        (strHas (normalizeOption (nativeOptionText (e.etype == "radio") o))
           (normalizeOption al) = true ∨
         normalizeOption o.value = normalizeOption al) := by
  refine ⟨by unfold chooseOption; rw [h], ?_⟩
  rcases cfg with _ | c
  · simp [tryAliasMatch] at h
  · refine ⟨c, rfl, ?_⟩
    by_cases h1 : c.options.isEmpty
    · simp [tryAliasMatch, h1] at h
    · by_cases h2 : (conceptAliases c.options (normalizeOption v)).isEmpty
      · simp [tryAliasMatch, h1, h2] at h
      · have hfind : e.options.find?
            (aliasOptionPred (e.etype == "radio")
              (conceptAliases c.options (normalizeOption v))) = some o := by
          simpa [tryAliasMatch, h1, h2] using h
        have hp := List.find?_some hfind
        simp only [aliasOptionPred, List.any_eq_true, Bool.or_eq_true,
          beq_iff_eq] at hp
        rcases hp with ⟨al, hal, hcase⟩
        exact ⟨al, hal, hcase⟩

/-- Witness for C6: the alias tier picks the "Male" option for the profile
value "Male", and that choice is what the fill selection uses. -/
theorem C6_alias_tier_soundness_witness :
    tryAliasMatch c6wElement "Male" (fieldMapLookup "gender")
      = some { text := "Male", value := "Male" } ∧
    (chooseOption c6wElement "Male" (fieldMapLookup "gender")
       = some { text := "Male", value := "Male" } ∧
     ∃ c, fieldMapLookup "gender" = some c ∧
       ∃ al ∈ conceptAliases c.options (normalizeOption "Male"),
         (strHas (normalizeOption (nativeOptionText (c6wElement.etype == "radio")
              { text := "Male", value := "Male" }))
            (normalizeOption al) = true ∨
          normalizeOption (DomOption.value { text := "Male", value := "Male" })
            = normalizeOption al)) :=
  ⟨by decide,
   C6_alias_tier_soundness c6wElement "Male" (fieldMapLookup "gender")
     { text := "Male", value := "Male" } (by decide)⟩

/-- In yes/no mode the semantic scan's accumulator only ever reaches a score
of 0.6 on an option whose normalized text or value equals the normalized
profile value: every scored option gets 1.0 on exact equality and 0
otherwise. -/
lemma semantic_yesno_inv (e : Element) (isRadio : Bool) (np : String) :
    ∀ (l : List DomOption) (acc : Option DomOption × Int),
      (∀ o, acc.1 = some o → 60 ≤ acc.2 →
        normalizeOption (nativeOptionText isRadio o) = np ∨
        normalizeOption o.value = np) →
      ∀ o, (l.foldl (semanticStep e true isRadio np) acc).1 = some o →
        60 ≤ (l.foldl (semanticStep e true isRadio np) acc).2 →
        normalizeOption (nativeOptionText isRadio o) = np ∨
        normalizeOption o.value = np := by
  intro l
  induction l with
  | nil => intro acc hacc o h1 h2; exact hacc o h1 h2
  | cons x t ih =>
    intro acc hacc o h1 h2
    rw [List.foldl_cons] at h1 h2
    refine ih (semanticStep e true isRadio np acc x) ?_ o h1 h2
    intro o' ho' hs'
    unfold semanticStep at ho' hs'
    split_ifs at ho' hs' with hskip
    · exact hacc o' ho' hs'
    · by_cases hlt : acc.2 < semanticOptionScore true isRadio np x
      · rw [if_pos hlt] at ho' hs'
        have hx : x = o' := by simpa using ho'
        subst hx
        unfold semanticOptionScore at hs'
        simp only [if_true] at hs'
        split_ifs at hs' with heq
        · simpa [beq_iff_eq] using heq
        · omega
      · rw [if_neg hlt] at ho' hs'
        exact hacc o' ho' hs'

/-- Counterexample for C7: on the Google Forms radio path a profile value
normalizing to "no" IS selected into the option "north" by the semantic
fallback (substring score 0.8), with no exact equality anywhere — the yes/no
bypass exists only on the native select / radio path. -/
theorem C7_yesno_counterexample :
    normalizeOption "no" = "no" ∧
    googleRadioSelect ["north"] "no" none = some "north" ∧
    normalizeOption "north" ≠ "no" ∧
    ("north" : String) ≠ "no" :=
  ⟨by decide, by decide, by decide, by decide⟩

/-- C7 (amended): on the native select / radio path, a profile value whose
normalization is "yes" or "no" bypasses fuzzy scoring: the semantic tier can
select an option only when the normalized value exactly equals the option's
normalized text or value.  (The Google Forms dropdown / radio semantic
fallback has no such bypass: see the counterexample.) -/
theorem C7_native_yesno_exact (e : Element) (v : String) (o : DomOption)
    (hyn : normalizeOption v = "yes" ∨ normalizeOption v = "no")
    (h : trySemanticOptionMatch e v = some o) :
    normalizeOption (nativeOptionText (e.etype == "radio") o) = normalizeOption v ∨
    normalizeOption o.value = normalizeOption v := by
  have hyn' : (normalizeOption v == "yes" || normalizeOption v == "no") = true := by
    rcases hyn with h' | h' <;> simp [h']
  have hb : semanticBest e v = e.options.foldl
      (semanticStep e true (e.etype == "radio") (normalizeOption v)) (none, 0) := by
    simp only [semanticBest, hyn']
  unfold trySemanticOptionMatch at h
  rw [hb] at h
  by_cases hs : (60 : Int) ≤ (e.options.foldl
      (semanticStep e true (e.etype == "radio") (normalizeOption v)) (none, 0)).2
  · rw [if_pos hs] at h
    exact semantic_yesno_inv e (e.etype == "radio") (normalizeOption v) e.options
      (none, 0) (by intro o' ho' _; simp at ho') o h hs
  · rw [if_neg hs] at h
    cases h

/-- Witness for C7: the native semantic tier selects the "No" option for the
profile value "No", and that selection is an exact normalized match. -/
theorem C7_native_yesno_exact_witness :
    (normalizeOption "No" = "yes" ∨ normalizeOption "No" = "no") ∧
    trySemanticOptionMatch c7wElement "No" = some { text := "No", value := "no" } ∧
    (normalizeOption (nativeOptionText (c7wElement.etype == "radio")
        { text := "No", value := "no" }) = normalizeOption "No" ∨
     normalizeOption (DomOption.value { text := "No", value := "no" })
       = normalizeOption "No") :=
  ⟨Or.inr (by decide), by decide,
   C7_native_yesno_exact c7wElement "No" { text := "No", value := "no" }
     (Or.inr (by decide)) (by decide)⟩

/-- Counterexample for C8: at the empty normalized strings (normalizeOption
of the empty string is empty) the code returns 0 through its falsy guard
while the claim's reference definition, whose first case is 1.0 on exact
equality, returns 1.0. -/
theorem C8_option_score_counterexample :
    calculateOptionScore "" "" = 0 ∧
    specOptionScore "" "" = 100 ∧
    normalizeOption "" = "" :=
  ⟨by decide, by decide, by decide⟩

/-- C8 (amended): for all non-empty normalized strings the semantic option
score equals the reference definition (1.0 on equality, 0.8 on target
containing query, 0.7 on query containing target, otherwise min(0.6,
sharedTokenCount * 0.2) with at least one shared token and 0 with none; in
hundredths); when either string is empty the code returns 0 instead.  An
option is selected by the native semantic tier only when its best score is
at least 0.6. -/
theorem C8_option_score_spec :
    (∀ target query : String, target ≠ "" → query ≠ "" →
      calculateOptionScore target query = specOptionScore target query) ∧
    (∀ (e : Element) (v : String) (o : DomOption),
      trySemanticOptionMatch e v = some o → 60 ≤ (semanticBest e v).2) := by
  constructor
  · intro target query ht hq
    unfold calculateOptionScore specOptionScore
    rw [if_neg (by simp [ht, hq])]
  · intro e v o h
    unfold trySemanticOptionMatch at h
    by_cases hs : (60 : Int) ≤ (semanticBest e v).2
    · exact hs
    · rw [if_neg hs] at h
      cases h

/-- Witness for C8: a concrete non-empty pair evaluates equally under both
definitions, and a concrete semantic selection has best score at least 0.6. -/
theorem C8_option_score_spec_witness :
    (("pune city" : String) ≠ "" ∧ ("pune" : String) ≠ "" ∧
      calculateOptionScore "pune city" "pune" = specOptionScore "pune city" "pune" ∧
      calculateOptionScore "pune city" "pune" = 80) ∧
    (trySemanticOptionMatch c8Element "pune" = some { text := "pune city", value := "pc" } ∧
      60 ≤ (semanticBest c8Element "pune").2) :=
  ⟨⟨by decide, by decide,
    C8_option_score_spec.1 "pune city" "pune" (by decide) (by decide), by decide⟩,
   ⟨by decide,
    C8_option_score_spec.2 c8Element "pune" { text := "pune city", value := "pc" }
      (by decide)⟩⟩

set_option maxRecDepth 8000 in
/-- Counterexample for C9: with the name attribute matched at full confidence
but an empty profile, the resolved value is empty and the field is reported
skipped with reason exactly "no match" — NOT with a reason distinct from
"no match" as the claim states. -/
theorem C9_empty_value_reason_counterexample :
    (matchFieldToProfile (mkFieldData c9Element) (ProfVal.obj [])).matchKey
      = some "name" ∧
    (matchFieldToProfile (mkFieldData c9Element) (ProfVal.obj [])).rvalue = none ∧
    processStandardField c9Element "field_0" (ProfVal.obj []) [] =
      Outcome.skip "no match" :=
  ⟨by decide, by decide, by decide⟩

/-- C9 (amended): a field whose matched attribute resolves to an empty or
undefined profile value is never filled and lands in the skipped list, with
reason exactly "no match" (the same label the output uses for that skip
branch); fields with no matched attribute are instead reported with reason
"low confidence". -/
theorem C9_empty_value_skip (e : Element) (fid : String) (profile : ProfVal)
    (maps : List (String × String)) (k : String)
    (hsafe : isSafeToFill e = true)
    (hulab : isUnsafeLabel (standardLabelText e fid) = false)
    (hmiss : lookupAssoc maps (standardNormalizedLabel e fid) = none)
    (hk : (matchFieldToProfile (mkFieldData e) profile).matchKey = some k)
    (hv : (matchFieldToProfile (mkFieldData e) profile).rvalue = none) :
    processStandardField e fid profile maps = Outcome.skip "no match" ∧
    (∀ key value conf success,
      processStandardField e fid profile maps
        ≠ Outcome.fillAttempt key value conf success) ∧
    (∀ key value,
      processStandardField e fid profile maps ≠ Outcome.learned key value) := by
  have hmed : flLe MEDIUM_CONFIDENCE
      (matchFieldToProfile (mkFieldData e) profile).confidence = true := by
    rcases matchFieldToProfile_shape (mkFieldData e) profile with ⟨h1, _⟩ | h2
    · rw [h1] at hk; cases hk
    · exact h2
  have hmain : processStandardField e fid profile maps = Outcome.skip "no match" := by
    rw [processStandardField_scoring e fid profile maps hsafe hulab hmiss]
    simp only [scoreAndRoute, routeMatch, hv]
    rw [if_neg (fun hcon => flLe_flLt_absurd _ _ hmed hcon)]
  refine ⟨hmain, ?_, ?_⟩
  · intro key value conf success
    rw [hmain]
    simp
  · intro key value
    rw [hmain]
    simp

set_option maxRecDepth 8000 in
/-- Witness for C9 at concrete fields and the empty profile: a text input and
a select that already holds a selection (eligible through isSafeToFill's
unconditional select branch) both match the name attribute with no resolvable
value and are skipped with reason "no match". -/
theorem C9_empty_value_skip_witness :
    isSafeToFill c9Element = true ∧
    (matchFieldToProfile (mkFieldData c9Element) (ProfVal.obj [])).matchKey
      = some "name" ∧
    (matchFieldToProfile (mkFieldData c9Element) (ProfVal.obj [])).rvalue = none ∧
    processStandardField c9Element "field_1" (ProfVal.obj []) [] =
      Outcome.skip "no match" ∧
    isSafeToFill c9SelectElement = true ∧
    c9SelectElement.value ≠ "" ∧
    processStandardField c9SelectElement "field_2" (ProfVal.obj []) [] =
      Outcome.skip "no match" :=
  ⟨by decide, by decide, by decide,
   (C9_empty_value_skip c9Element "field_1" (ProfVal.obj []) [] "name"
     (by decide) (by decide) (by decide) (by decide) (by decide)).1,
   by decide, by decide,
   (C9_empty_value_skip c9SelectElement "field_2" (ProfVal.obj []) [] "name"
     (by decide) (by decide) (by decide) (by decide) (by decide)).1⟩

set_option maxRecDepth 8000 in
/-- Counterexample for C10: the numeric refusal happens (the fill attempt
fails on the number-typed control for the value "two"), but the field is NOT
reported skipped with reason "numeric mismatch" — the loop records a failed
fill attempt and no skipped entry at all (no such reason string exists in the
engine). -/
theorem C10_numeric_mismatch_counterexample :
    isNumericValue "two" = false ∧
    elementInputType c10Element = "number" ∧
    processStandardField c10Element "field_0" c10Profile [] =
      Outcome.fillAttempt "backlog_count" "two" fl1 false ∧
    Outcome.fillAttempt "backlog_count" "two" fl1 false
      ≠ Outcome.skip "numeric mismatch" :=
  ⟨by decide, by decide, by decide, by decide⟩

/-- C10 (amended): for a matched attribute declaring expectsNumeric on a
text-like non-date control, the fill is refused exactly when the control is
number- or tel-typed AND the resolved value fails the numeric-parse check
(so the same non-numeric value into a plain text control is accepted); and a
high-confidence field refused this way is recorded as a failed fill attempt,
never as a skipped entry — no "numeric mismatch" reason exists. -/
theorem C10_numeric_refusal :
    (∀ (e : Element) (v : String) (cfg : FieldConfig),
      v ≠ "" → cfg.isNumeric = true →
      e.tagName ≠ "SELECT" → elementInputType e ≠ "radio" →
      ¬(cfg.isDate = true ∧ elementInputType e = "date") →
      (fillField e v (some cfg) = false ↔
        ((elementInputType e = "number" ∨ elementInputType e = "tel") ∧
         isNumericValue v = false))) ∧
    (∀ (e : Element) (fid : String) (profile : ProfVal)
        (maps : List (String × String)) (v k : String),
      isSafeToFill e = true →
      isUnsafeLabel (standardLabelText e fid) = false →
      lookupAssoc maps (standardNormalizedLabel e fid) = none →
      (matchFieldToProfile (mkFieldData e) profile).rvalue = some v →
      (matchFieldToProfile (mkFieldData e) profile).matchKey = some k →
      flLe HIGH_CONFIDENCE
        (matchFieldToProfile (mkFieldData e) profile).confidence = true →
      fillField e v (fieldMapLookup k) = false →
      processStandardField e fid profile maps =
        Outcome.fillAttempt k v
          (matchFieldToProfile (mkFieldData e) profile).confidence false ∧
      (∀ reason, processStandardField e fid profile maps ≠ Outcome.skip reason)) := by
  constructor
  · intro e v cfg hv hnum htag hradio hdate
    unfold fillField
    rw [if_neg hv]
    have hsel : ¬((e.tagName == "SELECT" || elementInputType e == "radio") = true) := by
      simp [htag, hradio]
    have hdt : ¬(((some cfg).map (·.isDate)).getD false
        && elementInputType e == "date") = true := by
      simp only [Option.map_some', Option.getD_some, Bool.and_eq_true, beq_iff_eq]
      intro hcon
      exact hdate ⟨hcon.1, hcon.2⟩
    by_cases hnt : (elementInputType e == "number" || elementInputType e == "tel") = true
    · by_cases hval : isNumericValue v
      · rw [if_neg (by simp [hval]), if_neg hdt, if_neg hsel]
        simp [hval]
      · rw [if_pos (by simp [hnum, hnt, hval])]
        simp only [Bool.or_eq_true, beq_iff_eq] at hnt
        simp [hnt, hval]
    · rw [if_neg (by simp [hnt]), if_neg hdt, if_neg hsel]
      simp only [Bool.or_eq_true, beq_iff_eq] at hnt
      push_neg at hnt
      simp [hnt.1, hnt.2]
  · intro e fid profile maps v k hsafe hulab hmiss hrv hmk hconf hfill
    have hmain : processStandardField e fid profile maps =
        Outcome.fillAttempt k v
          (matchFieldToProfile (mkFieldData e) profile).confidence false := by
      rw [processStandardField_scoring e fid profile maps hsafe hulab hmiss]
      simp only [scoreAndRoute, routeMatch, hrv, hmk]
      rw [if_pos hconf, hfill]
    refine ⟨hmain, ?_⟩
    intro reason
    rw [hmain]
    simp

set_option maxRecDepth 8000 in
/-- Witness for C10: the number-typed control refuses the non-numeric value
"two" of the matched backlog_count attribute and the field is recorded as a
failed fill attempt (no skipped entry); the identical text-typed control
accepts the same value. -/
theorem C10_numeric_refusal_witness :
    fillField c10Element "two" (some backlogCfg) = false ∧
    fillField c10TextElement "two" (some backlogCfg) = true ∧
    processStandardField c10Element "field_0" c10Profile [] =
      Outcome.fillAttempt "backlog_count" "two" fl1 false := by
  have hmr : matchFieldToProfile (mkFieldData c10Element) c10Profile
      = ⟨some "two", some "backlog_count", fl1⟩ := by decide
  refine ⟨?_, ?_, ?_⟩
  · exact (C10_numeric_refusal.1 c10Element "two" backlogCfg
      (by decide) (by decide) (by decide) (by decide) (by decide)).mpr
      ⟨Or.inl (by decide), by decide⟩
  · have hiff := C10_numeric_refusal.1 c10TextElement "two" backlogCfg
      (by decide) (by decide) (by decide) (by decide) (by decide)
    have hno : ¬((elementInputType c10TextElement = "number" ∨
        elementInputType c10TextElement = "tel") ∧
        isNumericValue "two" = false) := by decide
    cases hfb : fillField c10TextElement "two" (some backlogCfg) with
    | false => exact absurd (hiff.mp hfb) hno
    | true => rfl
  · have happ := (C10_numeric_refusal.2 c10Element "field_0" c10Profile [] "two"
      "backlog_count" (by decide) (by decide) (by decide)
      (by rw [hmr]) (by rw [hmr]) (by rw [hmr]; decide) (by decide)).1
    rw [hmr] at happ
    exact happ
